import Mathlib

/-!
Shallow embedding of the query-execution and result-materialization core of
the firebolt python SDK (`src/firebolt/async_db/_types.py`,
`src/firebolt/async_db/cursor.py`, `src/firebolt/async_db/connection.py`),
together with theorems settling the frozen claims about it.

Conventions of the embedding:
* Python exceptions become an explicit `PyErr` value returned through
  `Except`; a raised exception leaves the mutated-so-far state visible, so
  stateful operations return `State × Except PyErr α`.
* Machine-external collaborators (the HTTP transport with its validation and
  JSON decoding pipeline, the `sqlparse` tokenizer, the `ciso8601` datetime
  parser) are passed in as explicit arguments, exactly at the boundary where
  the source calls them.
* IEEE-754 `float` values do not embed exactly; the constructors for python
  floats / `Decimal` are omitted from the value types, which no claim under
  verification touches.  Every other branch of the source functions is
  reproduced.
-/

namespace Firebolt

/-- Python exceptions raised by the code under verification.
Mirrors `firebolt.common.exception` plus the builtin exceptions the source
can raise (`AssertionError` from bare asserts, `ValueError`/`TypeError` from
conversions, plus a generic transport-level HTTP error). -/
inductive PyErr where
  | dataError (msg : String)
  | notSupportedError (msg : String)
  | cursorClosedError
  | queryNotRunError
  | connectionClosedError
  | operationalError (msg : String)
  | programmingError (msg : String)
  | fireboltDatabaseError (msg : String)
  | engineNotRunningError (msg : String)
  | assertionError
  | valueError (msg : String)
  | typeError (msg : String)
  | indexError
  | httpError (status : Nat)
  deriving DecidableEq, Repr

/-- Is this exception a `DataError`?  (Used to state claims that a failure
surfaces as `DataError` specifically.) -/
def PyErr.isDataError : PyErr → Bool
  | .dataError _ => true
  | _ => false

/-! ### Python string primitives used by the source -/

/-- The simple whitespace set of python `str.strip()`. -/
def pyIsSpace (c : Char) : Bool :=
  c = ' ' ∨ c = '\t' ∨ c = '\n' ∨ c = '\x0d' ∨ c = '\x0b' ∨ c = '\x0c'

/-- Python `s.lstrip()` on a character list. -/
def pyLstrip (l : List Char) : List Char := l.dropWhile pyIsSpace

/-- Python `s.rstrip()` on a character list: drop trailing whitespace. -/
def pyRstrip (l : List Char) : List Char :=
  (l.reverse.dropWhile pyIsSpace).reverse

/-- Python `s.strip()` on a character list. -/
def pyStrip (l : List Char) : List Char := pyRstrip (pyLstrip l)

/-- Python `s.rstrip(";")` on a character list: drop every trailing `;`. -/
def pyRstripSemi (l : List Char) : List Char :=
  (l.reverse.dropWhile (fun c => c = ';')).reverse

/-- Python index normalization for `l[i:j]` slices (step 1): negative
indices count from the end, then both are clamped to `[0, len]`. -/
def pySliceIdx (n : Nat) (i : Int) : Nat :=
  if i < 0 then (max (i + n) 0).toNat else min i.toNat n

/-- Python `l[a:b]` with step 1. -/
def pySlice {α : Type} (l : List α) (a b : Int) : List α :=
  (l.take (pySliceIdx l.length b)).drop (pySliceIdx l.length a)

/-- Python `l[i]` for a single (possibly negative) index. -/
def pyGetItem {α : Type} (l : List α) (i : Int) : Except PyErr α :=
  if h : 0 ≤ i ∧ i.toNat < l.length then .ok (l.get ⟨i.toNat, h.2⟩)
  else if h' : i < 0 ∧ (i + l.length).toNat < l.length ∧ 0 ≤ i + l.length then
    .ok (l.get ⟨(i + l.length).toNat, h'.2.1⟩)
  else .error .indexError

/-! ### TypeSystem: `parse_type` (`_types.py`, lines 155-171)

`parse_type` returns a *python type object* (`int`, `float`, `str`,
`datetime.date`, `datetime.datetime`) or an `ARRAY` instance.  `CType` is
that codomain.  `_InternalType.python_type` maps every known scalar name
into it; unknown names fall back to `str`. -/

inductive CType where
  | int
  | float
  | str
  | date
  | datetime
  | array (subtype : CType)
  deriving DecidableEq, Repr

/-- `_InternalType(raw).python_type`: `some` for the 14 known scalar names
(`_types.py` lines 99-152), `none` when the `_InternalType` constructor
raises `ValueError`. -/
def internalTypePy : String → Option CType
  | "Int8" => some .int
  | "UInt8" => some .int
  | "Int16" => some .int
  | "UInt16" => some .int
  | "Int32" => some .int
  | "UInt32" => some .int
  | "Int64" => some .int
  | "UInt64" => some .int
  | "Float32" => some .float
  | "Float64" => some .float
  | "String" => some .str
  | "Date" => some .date
  | "DateTime" => some .datetime
  | "Nothing" => some .str
  | _ => none

/-- `parse_type` body on the character list of the raw type name.
`raw_type.startswith("Array(") and raw_type.endswith(")")` unwraps the
array wrapper, `"Nullable(" ... ")"` is unwrapped and discarded, and
anything else goes through `_InternalType` with fallback `str`.
Recursion is driven by a fuel argument so the definition is structural
(hence computable by the kernel); each unwrapping step removes at least 7
characters, so fuel `raw.length` never runs out (`parseTypeChars_congr`). -/
def parseTypeChars : Nat → List Char → CType
  | 0, _ => .str
  | fuel + 1, raw =>
    if raw.take 6 = "Array(".data ∧ raw.getLast? = some ')' then
      .array (parseTypeChars fuel ((raw.drop 6).dropLast))
    else if raw.take 9 = "Nullable(".data ∧ raw.getLast? = some ')' then
      parseTypeChars fuel ((raw.drop 9).dropLast)
    else
      match internalTypePy (String.mk raw) with
      | some t => t
      | none => .str

/-- `parse_type(raw_type)` (`_types.py` line 155). -/
def parse_type (raw : String) : CType := parseTypeChars raw.data.length raw.data

/-- Python `str()` of a `parse_type` result: type objects render as
`<class 'int'>` etc., and `ARRAY.__str__` renders
`f"Array({str(self.subtype)})"` (`_types.py` lines 87-88). -/
def pyTypeStrChars : CType → List Char
  | .int => "<class 'int'>".data
  | .float => "<class 'float'>".data
  | .str => "<class 'str'>".data
  | .date => "<class 'datetime.date'>".data
  | .datetime => "<class 'datetime.datetime'>".data
  | .array t => "Array(".data ++ pyTypeStrChars t ++ [')']

/-- Python `str()` of a `parse_type` result, as a `String`. -/
def pyTypeStr (t : CType) : String := String.mk (pyTypeStrChars t)

/-- The `parse_type` result with its scalar base degraded to `str`,
keeping the `Array` nesting.  This is what re-parsing the python `str()`
rendering actually produces. -/
def baseToStr : CType → CType
  | .array t => .array (baseToStr t)
  | _ => .str

/-! ### Dates and datetimes

`datetime.date` / `datetime.datetime` values.  A `datetime` carries its
`utcoffset()` in minutes (`none` = naive), which is all `format_value`
consults. -/

structure PyDate where
  year : Int
  month : Nat
  day : Nat
  deriving DecidableEq, Repr

structure PyDateTime where
  date : PyDate
  hour : Nat
  minute : Nat
  second : Nat
  tzMinutes : Option Int
  deriving DecidableEq, Repr

/-- Days since 1970-01-01 of a civil date (proleptic Gregorian calendar,
transliterated from the standard `days_from_civil` algorithm, matching
python `datetime` arithmetic). -/
def daysFromCivil (y0 : Int) (m : Nat) (d : Nat) : Int :=
  let y : Int := if m ≤ 2 then y0 - 1 else y0
  let era : Int := (if 0 ≤ y then y else y - 399).tdiv 400
  let yoe : Nat := (y - era * 400).toNat
  let mp : Nat := (m + 9) % 12
  let doy : Nat := (153 * mp + 2) / 5 + d - 1
  let doe : Nat := yoe * 365 + yoe / 4 - yoe / 100 + doy
  era * 146097 + (doe : Int) - 719468

/-- Civil date from days since 1970-01-01 (inverse of `daysFromCivil`). -/
def civilFromDays (z0 : Int) : Int × Nat × Nat :=
  let z : Int := z0 + 719468
  let era : Int := (if 0 ≤ z then z else z - 146096).tdiv 146097
  let doe : Nat := (z - era * 146097).toNat
  let yoe : Nat := (doe - doe / 1460 + doe / 36524 - doe / 146096) / 365
  let y : Int := (yoe : Int) + era * 400
  let doy : Nat := doe - (365 * yoe + yoe / 4 - yoe / 100)
  let mp : Nat := (5 * doy + 2) / 153
  let d : Nat := doy - (153 * mp + 2) / 5 + 1
  let m : Nat := if mp < 10 then mp + 3 else mp - 9
  (if m ≤ 2 then y + 1 else y, m, d)

/-- Left-pad a numeral with zeros. -/
def padZeros (width : Nat) (n : Nat) : String :=
  let s := toString n
  String.mk (List.replicate (width - s.length) '0') ++ s

/-- `date.isoformat()`: `YYYY-MM-DD`. -/
def pyDateIso (d : PyDate) : String :=
  (if d.year < 0 then "-" else "")
    ++ padZeros 4 d.year.natAbs ++ "-" ++ padZeros 2 d.month ++ "-"
    ++ padZeros 2 d.day

/-- `value.strftime('%Y-%m-%d %H:%M:%S')`. -/
def pyStrftimeYmdHMS (dt : PyDateTime) : String :=
  pyDateIso dt.date ++ " " ++ padZeros 2 dt.hour ++ ":"
    ++ padZeros 2 dt.minute ++ ":" ++ padZeros 2 dt.second

/-- `value.astimezone(timezone.utc)` for an aware datetime: shift the civil
time by the negated utc offset (exact calendar arithmetic). -/
def pyAstimezoneUTC (dt : PyDateTime) (offsetMinutes : Int) : PyDateTime :=
  let total : Int :=
    daysFromCivil dt.date.year dt.date.month dt.date.day * 86400
      + (dt.hour * 3600 + dt.minute * 60 + dt.second : Nat)
      - offsetMinutes * 60
  let days : Int := total.ediv 86400
  let secs : Nat := (total.emod 86400).toNat
  let c := civilFromDays days
  { date := { year := c.1, month := c.2.1, day := c.2.2 }
    hour := secs / 3600
    minute := secs % 3600 / 60
    second := secs % 60
    tzMinutes := some 0 }

/-! ### Parameter values and `format_value` (`_types.py`, lines 199-225) -/

/-- A `ParameterType` value as passed to `execute`.  The python `float` and
`decimal.Decimal` cases are omitted (IEEE-754 text rendering does not embed);
every claim under verification avoids them. -/
inductive PVal where
  | bool (b : Bool)
  | int (i : Int)
  | str (s : String)
  | datetime (dt : PyDateTime)
  | date (d : PyDate)
  | none
  | seq (l : List PVal)

/-- `escape_chars` applied to one character (`_types.py` lines 199-203). -/
def escapeChar (c : Char) : List Char :=
  if c = '\x00' then ['\\', '0']
  else if c = '\\' then ['\\', '\\']
  else if c = '\x27' then ['\\', '\x27']
  else [c]

mutual

/-- `format_value(value)`: render a parameter as a SQL literal.  The branch
order follows the source: `bool` before `int` (python `bool` subclasses
`int`), `datetime` before `date` (subclass), `None`, then any `Sequence`.
The final `DataError("unsupported parameter type")` branch is unreachable
over these constructors and so has no arm here. -/
def format_value : PVal → String
  | .bool b => if b then "1" else "0"
  | .int i => toString i
  | .str s => "'" ++ String.mk (s.data.flatMap escapeChar) ++ "'"
  | .datetime dt =>
      let dt' := match dt.tzMinutes with
        | some off => pyAstimezoneUTC dt off
        | «none» => dt
      "'" ++ pyStrftimeYmdHMS dt' ++ "'"
  | .date d => "'" ++ pyDateIso d ++ "'"
  | .none => "NULL"
  | .seq l => "[" ++ String.intercalate ", " (formatValueList l) ++ "]"

/-- `', '.join(format_value(it) for it in value)` helper. -/
def formatValueList : List PVal → List String
  | [] => []
  | x :: xs => format_value x :: formatValueList xs

end

/-! ### Wire values and `parse_value` (`_types.py`, lines 174-196) -/

/-- `RawColType`: a wire-decoded, not yet type-converted value.  The python
`float` constructor is omitted (see the file docstring). -/
inductive RawVal where
  | int (i : Int)
  | str (s : String)
  | bool (b : Bool)
  | list (l : List RawVal)
  | none

/-- `ColType`: a value after semantic conversion (additionally `date` /
`datetime`; floats produced by `float(...)` conversion are carried as exact
rationals, binary64 rounding is not modeled). -/
inductive ColVal where
  | int (i : Int)
  | float (q : Rat)
  | str (s : String)
  | bool (b : Bool)
  | date (d : PyDate)
  | datetime (dt : PyDateTime)
  | list (l : List ColVal)
  | none

mutual

/-- Python `str(value)` of a raw wire value. -/
def pyStrOfRaw : RawVal → String
  | .int i => toString i
  | .str s => s
  | .bool b => if b then "True" else "False"
  | .list l => "[" ++ String.intercalate ", " (pyReprOfRawList l) ++ "]"
  | .none => "None"

/-- Python `repr(value)` of a raw wire value (list elements render with
`repr`; string escaping inside `repr` is modeled for backslash and quote). -/
def pyReprOfRaw : RawVal → String
  | .str s =>
      "'" ++ String.mk (s.data.flatMap (fun c =>
        if c = '\\' then ['\\', '\\']
        else if c = '\x27' then ['\\', '\x27'] else [c])) ++ "'"
  | .int i => toString i
  | .bool b => if b then "True" else "False"
  | .list l => "[" ++ String.intercalate ", " (pyReprOfRawList l) ++ "]"
  | .none => "None"

/-- `repr` over a list of raw values. -/
def pyReprOfRawList : List RawVal → List String
  | [] => []
  | x :: xs => pyReprOfRaw x :: pyReprOfRawList xs

end

/-- Python `int(str)`: strip whitespace, optional sign, decimal digits. -/
def pyIntOfStr (s : String) : Except PyErr Int :=
  let t := pyStrip s.data
  let core := match t with
    | '-' :: rest => some (true, rest)
    | '+' :: rest => some (false, rest)
    | rest => some (false, rest)
  match core with
  | some (neg, digits) =>
    if digits ≠ [] ∧ digits.all Char.isDigit then
      let n := digits.foldl (fun acc c => acc * 10 + (c.toNat - '0'.toNat)) 0
      .ok (if neg then -(n : Int) else (n : Int))
    else
      .error (.valueError ("invalid literal for int() with base 10: "
        ++ pyReprOfRaw (.str s)))
  | «none» => .error (.valueError "unreachable")

/-- Python `int(value)` on a raw wire value (`bool` is an `int` subclass;
the `float` truncation branch is omitted with the `float` constructor). -/
def pyIntOf : RawVal → Except PyErr Int
  | .int i => .ok i
  | .bool b => .ok (if b then 1 else 0)
  | .str s => pyIntOfStr s
  | .list _ => .error (.typeError "int() argument must be a string or a number")
  | .none => .error (.typeError "int() argument must be a string or a number")

/-- Python `float(str)` for plain decimal literals (sign, digits, optional
fractional part); exponents and special values are not modeled. -/
def pyFloatOfStr (s : String) : Except PyErr Rat :=
  let t := pyStrip s.data
  let (neg, rest) := match t with
    | '-' :: r => (true, r)
    | '+' :: r => (false, r)
    | r => (false, r)
  let intPart := rest.takeWhile Char.isDigit
  let frac := rest.drop intPart.length
  let fracDigits := match frac with
    | '.' :: fr => some fr
    | [] => some []
    | _ => Option.none
  match fracDigits with
  | some fr =>
    if (intPart ≠ [] ∨ fr ≠ []) ∧ fr.all Char.isDigit ∧ frac.length ≤ fr.length + 1 then
      let num := (intPart ++ fr).foldl (fun acc c => acc * 10 + (c.toNat - '0'.toNat)) 0
      let q : Rat := (num : Rat) / ((10 : Rat) ^ fr.length)
      .ok (if neg then -q else q)
    else .error (.valueError ("could not convert string to float: "
      ++ pyReprOfRaw (.str s)))
  | «none» => .error (.valueError ("could not convert string to float: "
      ++ pyReprOfRaw (.str s)))

/-- Python `float(value)` on a raw wire value. -/
def pyFloatOf : RawVal → Except PyErr Rat
  | .int i => .ok (i : Rat)
  | .bool b => .ok (if b then 1 else 0)
  | .str s => pyFloatOfStr s
  | .list _ => .error (.typeError "float() argument must be a string or a number")
  | .none => .error (.typeError "float() argument must be a string or a number")

/-- `parse_value(value, ctype)` (`_types.py` lines 174-196), structured as
recursion on `ctype` so that it stays structural (the `value is None` early
return is therefore repeated in each arm).  Branches, in source order:
`None` passes through; `int`/`str`/`float` apply the native conversion;
`date`/`datetime` demand a string and hand it to the external ISO-8601
parser `pdt` (the `ciso8601.parse_datetime` collaborator, an argument
here); `ARRAY` demands a list via a *bare python assert* — a non-list
raises `AssertionError`, not `DataError` — and converts elements
recursively.  The trailing `DataError("Unsupported data type returned")`
is unreachable over this codomain of `parse_type`. -/
def parseValueF (pdt : String → Except PyErr PyDateTime) :
    CType → RawVal → Except PyErr ColVal
  | .int => fun v => match v with
      | .none => .ok .none
      | v => (pyIntOf v).map .int
  | .str => fun v => match v with
      | .none => .ok .none
      | v => .ok (.str (pyStrOfRaw v))
  | .float => fun v => match v with
      | .none => .ok .none
      | v => (pyFloatOf v).map .float
  | .date => fun v => match v with
      | .none => .ok .none
      | .str s => (pdt s).map (fun dt => .date dt.date)
      | v => .error (.dataError ("Invalid date value " ++ pyStrOfRaw v
          ++ ": str expected"))
  | .datetime => fun v => match v with
      | .none => .ok .none
      | .str s => (pdt s).map .datetime
      | v => .error (.dataError ("Invalid datetime value " ++ pyStrOfRaw v
          ++ ": str expected"))
  | .array t =>
    let f := parseValueF pdt t
    fun v => match v with
      | .none => .ok .none
      | .list l => (l.mapM f).map .list
      | _ => .error .assertionError

/-- `parse_value(value, ctype)` with the source's argument order. -/
def parse_value (value : RawVal) (ctype : CType)
    (pdt : String → Except PyErr PyDateTime) : Except PyErr ColVal :=
  parseValueF pdt ctype value

/-! ### StatementFormatter (`_types.py`, lines 228-281)

The `sqlparse` tokenizer is the external `SqlTokenizer` collaborator: a
parsed statement arrives as a token tree.  All the source consults is
whether a token is a leaf with `ttype == TokenType.Name.Placeholder`, a
`TokenList` group of child tokens, or any other leaf; `str()` of a token
is its source text, and `str()` of a group concatenates its children. -/

inductive Tok where
  | placeholder (src : String)
  | flat (src : String)
  | group (ts : List Tok)

mutual

/-- `str(token)`: the source text of a token (groups concatenate). -/
def Tok.render : Tok → String
  | .placeholder src => src
  | .flat src => src
  | .group ts => Tok.renderList ts

/-- `str()` over a `TokenList`'s children. -/
def Tok.renderList : List Tok → String
  | [] => ""
  | t :: ts => Tok.render t ++ Tok.renderList ts

end

/-- The `DataError` message for too few parameters (`_types.py` 239-242). -/
def notEnoughMsg (given : Nat) : String :=
  s!"not enough parameters provided for substitution: given {given}, found one more"

/-- The `DataError` message for unconsumed parameters (`_types.py` 254-258). -/
def tooManyMsg (given used : Nat) : String :=
  s!"too many parameters provided for substitution: given {given}, used only {used}"

mutual

/-- `process_token(token)` of `format_statement` (`_types.py` 234-250),
with the `nonlocal idx` counter made an explicit argument and result.
A placeholder consumes `parameters[idx]` (raising `DataError` when the
supply is exhausted) and becomes a plain text token holding
`format_value(parameters[idx])`; a `TokenList` recurses over its children
left to right; any other token passes through. -/
def processToken (parameters : List PVal) : Tok → Nat → Except PyErr (Tok × Nat)
  | .placeholder _, idx =>
    if idx ≥ parameters.length then
      .error (.dataError (notEnoughMsg parameters.length))
    else
      .ok (.flat (format_value (parameters.getD idx .none)), idx + 1)
  | .flat src, idx => .ok (.flat src, idx)
  | .group ts, idx =>
    match processTokenList parameters ts idx with
    | .error e => .error e
    | .ok (ts', i) => .ok (.group ts', i)

/-- `[process_token(t) for t in token.tokens]`, threading the counter. -/
def processTokenList (parameters : List PVal) :
    List Tok → Nat → Except PyErr (List Tok × Nat)
  | [], idx => .ok ([], idx)
  | t :: ts, idx =>
    match processToken parameters t idx with
    | .error e => .error e
    | .ok (t', i) =>
      match processTokenList parameters ts i with
      | .error e => .error e
      | .ok (ts', i') => .ok (t' :: ts', i')

end

/-- `format_statement(statement, parameters)` (`_types.py` 228-260):
process the token tree, `rstrip(";")` the rendering, then raise
`DataError` if any parameters remain unconsumed. -/
def format_statement (statement : Tok) (parameters : List PVal) :
    Except PyErr String :=
  match processToken parameters statement 0 with
  | .error e => .error e
  | .ok (tok, idx) =>
    let formatted_sql := String.mk (pyRstripSemi (Tok.render tok).data)
    if idx < parameters.length then
      .error (.dataError (tooManyMsg parameters.length idx))
    else
      .ok formatted_sql

/-- `split_format_sql(query, parameters)` (`_types.py` 263-281).  The
`parse_sql(query)` tokenizer output is the `statements` argument (the
external collaborator's result).  Zero statements return `[query]`; a
non-empty parameter-set list demands a single statement (else
`NotSupportedError`) and formats it once per parameter set; an empty
parameter-set list returns each statement `str(st).strip().rstrip(";")`. -/
def split_format_sql (query : String) (statements : List Tok)
    (parameters : List (List PVal)) : Except PyErr (List String) :=
  match statements with
  | [] => .ok [query]
  | st :: rest =>
    if !parameters.isEmpty then
      if !rest.isEmpty then
        .error (.notSupportedError "formatting multistatement queries is not supported")
      else
        parameters.mapM (fun paramset => format_statement st paramset)
    else
      .ok ((st :: rest).map (fun s =>
        String.mk (pyRstripSemi (pyStrip (Tok.render s).data))))

/-! ### Cursor (`cursor.py`)

`BaseCursor` state.  The HTTP round trip of one statement — the
`self._client.request` call, `_raise_if_error` validation and the JSON
decoding part of `_append_query_data` — is the external transport
pipeline; it enters the model as an oracle
`respond : String → Except PyErr RowSet` mapping a statement's SQL text to
either a decoded result set or the exception that leg raised. -/

/-- One entry of `Column` as this system populates it: only `name` and
`type_code` are ever set; the five remaining namedtuple slots are always
`None` and carry no information. -/
structure Col where
  name : String
  type_code : CType

/-- One element of `BaseCursor._row_sets`:
`(rowcount, descriptions, rows)`. -/
structure RowSet where
  rowcount : Int
  descriptions : Option (List Col)
  rows : Option (List (List RawVal))

/-- `CursorState` (`cursor.py` lines 54-58). -/
inductive CursorState where
  | NONE
  | ERROR
  | DONE
  | CLOSED
  deriving DecidableEq, Repr

/-- The `__slots__` of `BaseCursor` that the claims touch (the client and
connection back-reference live in the `Conn` model; the rw-lock is the
concurrency primitive, outside a sequential embedding). -/
structure CursorSt where
  state : CursorState
  arraysize : Int
  rows : Option (List (List RawVal))
  descriptions : Option (List Col)
  rowcount : Int
  idx : Int
  row_sets : List RowSet
  next_set_idx : Nat

/-- `BaseCursor._reset` (`cursor.py` 252-260). -/
def Cursor.reset (c : CursorSt) : CursorSt :=
  { c with
    state := .NONE
    rows := none
    descriptions := none
    rowcount := -1
    idx := 0
    row_sets := []
    next_set_idx := 0 }

/-- A cursor as `BaseCursor.__init__` leaves it (`default_arraysize = 1`,
then `_reset`). -/
def Cursor.fresh : CursorSt :=
  Cursor.reset
    { state := .NONE, arraysize := 1, rows := none, descriptions := none
      rowcount := -1, idx := 0, row_sets := [], next_set_idx := 0 }

/-- `BaseCursor._pop_next_set` (`cursor.py` 216-227): `none` when no set
remains, otherwise load the next queued set, reset the fetch position to 0
and advance the queue index. -/
def Cursor.popNextSet (c : CursorSt) : CursorSt × Option Bool :=
  if h : c.next_set_idx < c.row_sets.length then
    let rs := c.row_sets.get ⟨c.next_set_idx, h⟩
    ({ c with
        rowcount := rs.rowcount
        descriptions := rs.descriptions
        rows := rs.rows
        idx := 0
        next_set_idx := c.next_set_idx + 1 }, some true)
  else (c, none)

/-- The buffering tail of `BaseCursor._append_query_data` (`cursor.py`
200-203): append the decoded set to `_row_sets` and, if it is the very
first set overall, activate it immediately. -/
def Cursor.appendRowSet (c : CursorSt) (rs : RowSet) : CursorSt :=
  let c' := { c with row_sets := c.row_sets ++ [rs] }
  if c'.next_set_idx = 0 then (Cursor.popNextSet c').1 else c'

/-- `BaseCursor.nextset` (`cursor.py` 205-214) with its
`check_not_closed` / `check_query_executed` guards. -/
def Cursor.nextset (c : CursorSt) : CursorSt × Except PyErr (Option Bool) :=
  if c.state = .CLOSED then (c, .error .cursorClosedError)
  else if c.state = .NONE then (c, .error .queryNotRunError)
  else
    let p := Cursor.popNextSet c
    (p.1, .ok p.2)

/-- `BaseCursor._parse_row` (`cursor.py` 330-335): `len(row)` must equal
`len(self.description)` (bare assert; a `None` description would already
fail `len()` with `TypeError`), then convert each value by the column's
`type_code`. -/
def Cursor.parseRow (c : CursorSt) (row : List RawVal)
    (pdt : String → Except PyErr PyDateTime) : Except PyErr (List ColVal) :=
  match c.descriptions with
  | none => .error (.typeError "object of type NoneType has no len()")
  | some ds =>
    if row.length ≠ ds.length then .error .assertionError
    else (List.zip row ds).mapM (fun p => parse_value p.1 p.2.type_code pdt)

/-- `BaseCursor._get_next_range(size)` (`cursor.py` 337-352) together with
the mutation of `_idx`: `DataError` when no rows are materialized,
otherwise `(left, right) = (idx, min(idx + size, len(rows)))` and
`idx := right`. -/
def Cursor.getNextRange (c : CursorSt) (size : Int) :
    Except PyErr (CursorSt × Int × Int) :=
  match c.rows with
  | none => .error (.dataError "no rows to fetch")
  | some rs =>
    let left := c.idx
    let right := min (c.idx + size) (rs.length : Int)
    .ok ({ c with idx := right }, left, right)

/-- `BaseCursor.fetchone` (`cursor.py` 354-363) with its guards. -/
def Cursor.fetchone (c : CursorSt) (pdt : String → Except PyErr PyDateTime) :
    CursorSt × Except PyErr (Option (List ColVal)) :=
  if c.state = .CLOSED then (c, .error .cursorClosedError)
  else if c.state = .NONE then (c, .error .queryNotRunError)
  else
    match Cursor.getNextRange c 1 with
    | .error e => (c, .error e)
    | .ok (c', left, right) =>
      if left = right then (c', .ok none)
      else
        match c'.rows with
        | none => (c', .error (.dataError "no rows to fetch"))
        | some rs =>
          match pyGetItem rs left with
          | .error e => (c', .error e)
          | .ok row =>
            match Cursor.parseRow c' row pdt with
            | .error e => (c', .error e)
            | .ok pr => (c', .ok (some pr))

/-- `BaseCursor.fetchmany(size)` (`cursor.py` 365-376) with its guards;
`size = none` is the python `None` default, replaced by
`self.arraysize`. -/
def Cursor.fetchmany (c : CursorSt) (size : Option Int)
    (pdt : String → Except PyErr PyDateTime) :
    CursorSt × Except PyErr (List (List ColVal)) :=
  if c.state = .CLOSED then (c, .error .cursorClosedError)
  else if c.state = .NONE then (c, .error .queryNotRunError)
  else
    let sz := size.getD c.arraysize
    match Cursor.getNextRange c sz with
    | .error e => (c, .error e)
    | .ok (c', left, right) =>
      match c'.rows with
      | none => (c', .error (.dataError "no rows to fetch"))
      | some rs =>
        let sliced := pySlice rs left right
        match sliced.mapM (fun row => Cursor.parseRow c' row pdt) with
        | .error e => (c', .error e)
        | .ok out => (c', .ok out)

/-- `BaseCursor.fetchall` (`cursor.py` 378-385): like `fetchmany` with
`size = self.rowcount`. -/
def Cursor.fetchall (c : CursorSt) (pdt : String → Except PyErr PyDateTime) :
    CursorSt × Except PyErr (List (List ColVal)) :=
  if c.state = .CLOSED then (c, .error .cursorClosedError)
  else if c.state = .NONE then (c, .error .queryNotRunError)
  else
    match Cursor.getNextRange c c.rowcount with
    | .error e => (c, .error e)
    | .ok (c', left, right) =>
      match c'.rows with
      | none => (c', .error (.dataError "no rows to fetch"))
      | some rs =>
        let sliced := pySlice rs left right
        match sliced.mapM (fun row => Cursor.parseRow c' row pdt) with
        | .error e => (c', .error e)
        | .ok out => (c', .ok out)

/-- The per-statement loop of `BaseCursor._do_execute_request`
(`cursor.py` 273-304): one transport round trip per formatted statement,
buffering each decoded set; the first failure sets state `ERROR` and
re-raises unchanged; exhausting the list sets state `DONE`. -/
def Cursor.execLoop (respond : String → Except PyErr RowSet) :
    List String → CursorSt → CursorSt × Except PyErr Unit
  | [], c => ({ c with state := .DONE }, .ok ())
  | q :: qs, c =>
    match respond q with
    | .error e => ({ c with state := .ERROR }, .error e)
    | .ok rs => Cursor.execLoop respond qs (Cursor.appendRowSet c rs)

/-- `BaseCursor._do_execute_request` (`cursor.py` 262-304): reset all
buffered state, split/format the query (an exception there also lands in
the `except` clause), then run the per-statement loop. -/
def Cursor.doExecuteRequest (c : CursorSt) (query : String)
    (statements : List Tok) (parameters : List (List PVal))
    (respond : String → Except PyErr RowSet) : CursorSt × Except PyErr Unit :=
  let c0 := Cursor.reset c
  match split_format_sql query statements parameters with
  | .error e => ({ c0 with state := .ERROR }, .error e)
  | .ok qs => Cursor.execLoop respond qs c0

/-- The parameter-set list `execute` builds from its optional flat
parameter sequence (`params_list = [parameters] if parameters else []`,
python truthiness: `None` and the empty sequence both yield `[]`). -/
def execParamsList (parameters : Option (List PVal)) : List (List PVal) :=
  match parameters with
  | some ps => if ps.isEmpty then [] else [ps]
  | none => []

/-- `BaseCursor.execute` (`cursor.py` 306-317): `check_not_closed`, wrap a
single (python-truthy) parameter sequence as one parameter set
(`execParamsList`), run the request, return `self.rowcount`. -/
def Cursor.execute (c : CursorSt) (query : String) (statements : List Tok)
    (parameters : Option (List PVal))
    (respond : String → Except PyErr RowSet) : CursorSt × Except PyErr Int :=
  if c.state = .CLOSED then (c, .error .cursorClosedError)
  else
    match Cursor.doExecuteRequest c query statements
        (execParamsList parameters) respond with
    | (c', .ok _) => (c', .ok c'.rowcount)
    | (c', .error e) => (c', .error e)

/-- `BaseCursor.executemany` (`cursor.py` 319-328). -/
def Cursor.executemany (c : CursorSt) (query : String) (statements : List Tok)
    (parameters_seq : List (List PVal))
    (respond : String → Except PyErr RowSet) : CursorSt × Except PyErr Int :=
  if c.state = .CLOSED then (c, .error .cursorClosedError)
  else
    match Cursor.doExecuteRequest c query statements parameters_seq respond with
    | (c', .ok _) => (c', .ok c'.rowcount)
    | (c', .error e) => (c', .error e)

/-! ### Connection (`connection.py`, `BaseConnection`)

`created` holds every cursor the connection ever constructed, in creation
order; `registry` is `self._cursors`, holding the indices (python: object
references) of the cursors registered for cascading close.  The transport
(`self._client`) is external and carries no modeled state. -/

structure Conn where
  created : List CursorSt
  registry : List Nat
  is_closed : Bool

/-- Mark the cursor at index `i` closed (`self._state = CursorState.CLOSED`
in `BaseCursor.close`, `cursor.py` 168-173). -/
def setClosed : List CursorSt → Nat → List CursorSt
  | [], _ => []
  | c :: cs, 0 => { c with state := .CLOSED } :: cs
  | c :: cs, n + 1 => c :: setClosed cs n

/-- `BaseCursor.close` for the cursor at index `i`: set its state to
`CLOSED` and deregister it (`BaseConnection._remove_cursor`,
`connection.py` 243-248: `list.remove` of the first occurrence, a missing
entry is tolerated — `List.erase` has exactly that behavior). -/
def Conn.closeCursor (conn : Conn) (i : Nat) : Conn :=
  { conn with
    created := setClosed conn.created i
    registry := conn.registry.erase i }

/-- `for c in cursors: c.close()` over a snapshot of the registry. -/
def Conn.closeAll : List Nat → Conn → Conn
  | [], conn => conn
  | i :: rest, conn => Conn.closeAll rest (conn.closeCursor i)

/-- `BaseConnection._aclose` (`connection.py` 222-236): a closed
connection returns immediately; otherwise close every cursor in a copy of
the registry, close the transport (external), and mark the connection
closed. -/
def Conn.aclose (conn : Conn) : Conn :=
  if conn.is_closed then conn
  else
    let snapshot := conn.registry
    let conn' := Conn.closeAll snapshot conn
    { conn' with is_closed := true }

/-- `BaseConnection._cursor` (`connection.py` 210-220): refuse on a closed
connection, otherwise construct a fresh cursor and register it. -/
def Conn.newCursor (conn : Conn) : Except PyErr Conn :=
  if conn.is_closed then
    .error .connectionClosedError
  else
    .ok { conn with
      created := conn.created ++ [Cursor.fresh]
      registry := conn.registry ++ [conn.created.length] }

/-! ### Derived notions used to state the claims -/

mutual

/-- Number of placeholder tokens in a token tree (DFS). -/
def countPh : Tok → Nat
  | .placeholder _ => 1
  | .flat _ => 0
  | .group ts => countPhList ts

/-- Number of placeholder tokens in a forest. -/
def countPhList : List Tok → Nat
  | [] => 0
  | t :: ts => countPh t + countPhList ts

end

mutual

/-- The pure substitution `processToken` computes on success: the `k`-th
placeholder in DFS order (counting from `k0`) becomes the formatted text of
`parameters[k]`. -/
def substFrom (parameters : List PVal) : Tok → Nat → Tok
  | .placeholder _, k => .flat (format_value (parameters.getD k .none))
  | .flat s, _ => .flat s
  | .group ts, k => .group (substFromList parameters ts k)

/-- `substFrom` over a forest, threading the placeholder counter. -/
def substFromList (parameters : List PVal) : List Tok → Nat → List Tok
  | [], _ => []
  | t :: ts, k => substFrom parameters t k
      :: substFromList parameters ts (k + countPh t)

end

/-- Drop the maximal trailing run of characters satisfying `p` (an
independent, forward-recursion characterization of python's
`rstrip`-style trimming, used to state the amended C10). -/
def dropTrailingWhile (p : Char → Bool) : List Char → List Char
  | [] => []
  | c :: cs =>
    if (dropTrailingWhile p cs).isEmpty ∧ p c then []
    else c :: dropTrailingWhile p cs

/-- What the amended C10 asserts each statement is mapped to: its text with
leading whitespace, trailing whitespace, and then every trailing `;`
removed. -/
def specTrimC10 (s : String) : String :=
  String.mk (dropTrailingWhile (fun c => c = ';')
    (dropTrailingWhile pyIsSpace (s.data.dropWhile pyIsSpace)))

/-- What claim C10 as frozen asserts each statement is mapped to: its text
"trimmed of trailing whitespace and a single trailing semicolon, and
otherwise unchanged". -/
def claimTrimC10 (s : String) : String :=
  let t := pyRstrip s.data
  String.mk (match t.reverse with
    | ';' :: r => r.reverse
    | _ => t)

/-- Does an operation's result carry a `DataError`? -/
def isDataErrorResult {α : Type} : Except PyErr α → Bool
  | .error e => e.isDataError
  | .ok _ => false

/-- A fetch-side cursor operation, as enumerated by claim C9. -/
inductive FetchOp where
  | fone
  | fmany (size : Option Int)
  | fall
  | nset

/-- The state component of one fetch-side operation. -/
def fetchStep (pdt : String → Except PyErr PyDateTime) (c : CursorSt) :
    FetchOp → CursorSt
  | .fone => (Cursor.fetchone c pdt).1
  | .fmany size => (Cursor.fetchmany c size pdt).1
  | .fall => (Cursor.fetchall c pdt).1
  | .nset => (Cursor.nextset c).1

/-- Run a sequence of fetch-side operations. -/
def applyFetchOps (pdt : String → Except PyErr PyDateTime)
    (c : CursorSt) (ops : List FetchOp) : CursorSt :=
  ops.foldl (fetchStep pdt) c

/-- The invariant of claim C9: whenever a result set is materialized the
fetch position lies within `[0, len(rows)]`. -/
def posInv (c : CursorSt) : Bool :=
  match c.rows with
  | none => true
  | some rs => 0 ≤ c.idx ∧ c.idx ≤ (rs.length : Int)

/-- Well-formed row counts: the active and every queued materialized set
carries a non-negative `rowcount` (what a well-formed wire response
produces; `fetchall` uses it as a fetch size). -/
def countsWF (c : CursorSt) : Bool :=
  (match c.rows with
    | none => true
    | some _ => 0 ≤ c.rowcount)
  && c.row_sets.all (fun s =>
    match s.rows with
    | none => true
    | some _ => 0 ≤ s.rowcount)

/-- A fetch operation with a non-negative explicit size (the amended C9
restriction; `none` falls back to `arraysize`, restricted separately). -/
def opSizeOK : FetchOp → Bool
  | .fmany (some s) => 0 ≤ s
  | _ => true

/-- Iterate `nextset`, keeping the state. -/
def applyNextsets (c : CursorSt) : Nat → CursorSt
  | 0 => c
  | n + 1 => (Cursor.nextset (applyNextsets c n)).1

/-- The placeholder row set (`(-1, None, None)`). -/
def emptyRowSet : RowSet := { rowcount := -1, descriptions := none, rows := none }

/-- Buffer a list of decoded row sets in order. -/
def execBuffer (c : CursorSt) (rss : List RowSet) : CursorSt :=
  rss.foldl Cursor.appendRowSet c

/-- Run the respond oracle over a list of statements, stopping at the
first failure (the per-statement success prefix of the execute loop). -/
def mapExcept (f : String → Except PyErr RowSet) :
    List String → Except PyErr (List RowSet)
  | [] => .ok []
  | q :: qs =>
    match f q with
    | .error e => .error e
    | .ok r =>
      match mapExcept f qs with
      | .error e => .error e
      | .ok rest => .ok (r :: rest)

/-- What claim C1 asserts of a failing `execute`/`executemany` outcome:
the exception propagates unchanged, the state is `Error`, exactly the
result sets decoded before the failure stay buffered, and when at least
one was buffered the first is active at fetch position 0 with the rest
reachable through `nextset`. -/
def errorOutcome (result : CursorSt × Except PyErr Int)
    (rss : List RowSet) (e : PyErr) : Prop :=
  result.2 = .error e
  ∧ result.1.state = .ERROR
  ∧ result.1.row_sets = rss
  ∧ ∀ r0 rest, rss = r0 :: rest →
      result.1.rows = r0.rows
      ∧ result.1.descriptions = r0.descriptions
      ∧ result.1.idx = 0
      ∧ result.1.next_set_idx = 1

/-- Connection well-formedness: a created cursor that is no longer
registered has been closed, and a closed connection has closed every
cursor.  (Both hold for every connection reachable through the modeled
operations: cursors deregister only in `BaseCursor.close`.) -/
def ConnWF (conn : Conn) : Prop :=
  (∀ i : Fin conn.created.length,
      (i : Nat) ∉ conn.registry → (conn.created.get i).state = .CLOSED)
  ∧ (conn.is_closed = true → ∀ c ∈ conn.created, c.state = CursorState.CLOSED)

/-! ### Concrete fixtures for witnesses and counterexamples -/

/-- A stub for the external ISO-8601 parser (never consulted by the
fixtures below). -/
def pdtStub : String → Except PyErr PyDateTime :=
  fun _ => .error (.valueError "unparsed")

/-- `SELECT ?, ?` as a token tree. -/
def exSt : Tok :=
  .group [.flat "SELECT ", .placeholder "?", .flat ", ", .placeholder "?"]

/-- An executed cursor whose two-row result set is active. -/
def cTwoRows : CursorSt :=
  { state := .DONE
    arraysize := 1
    rows := some [[RawVal.int 1], [RawVal.int 2]]
    descriptions := some [{ name := "a", type_code := .int }]
    rowcount := 2
    idx := 0
    row_sets := [{ rowcount := 2
                   descriptions := some [{ name := "a", type_code := .int }]
                   rows := some [[RawVal.int 1], [RawVal.int 2]] }]
    next_set_idx := 1 }

/-- `cTwoRows` with the fetch position at the end of the rows. -/
def cTwoRowsEnd : CursorSt := { cTwoRows with idx := 2 }

/-- An executed cursor with `rowcount = 0`, non-null columns, no rows. -/
def cZeroRows : CursorSt :=
  { cTwoRows with
    rows := some []
    rowcount := 0
    row_sets := [{ rowcount := 0
                   descriptions := some [{ name := "a", type_code := .int }]
                   rows := some [] }] }

/-- An executed cursor whose statement produced no tabular data. -/
def cNoRows : CursorSt :=
  { cTwoRows with
    rows := none
    descriptions := none
    rowcount := -1
    row_sets := [emptyRowSet] }

/-- Three queued single-row result sets (for the `nextset` fixtures). -/
def threeSets : List RowSet :=
  [ { rowcount := 1
      descriptions := some [{ name := "a", type_code := .int }]
      rows := some [[RawVal.int 10]] }
  , { rowcount := 1
      descriptions := some [{ name := "b", type_code := .str }]
      rows := some [[RawVal.str "x"]] }
  , emptyRowSet ]

/-- An executed cursor with three buffered sets, the first active. -/
def cThreeSets : CursorSt :=
  { state := .DONE
    arraysize := 1
    rows := (threeSets.headD emptyRowSet).rows
    descriptions := (threeSets.headD emptyRowSet).descriptions
    rowcount := 1
    idx := 0
    row_sets := threeSets
    next_set_idx := 1 }

/-- A connection with two live cursors and one already-closed, removed
cursor. -/
def exConn : Conn :=
  { created := [{ Cursor.fresh with state := .DONE }
               , { Cursor.fresh with state := .CLOSED }
               , Cursor.fresh]
    registry := [0, 2]
    is_closed := false }

/-- A respond oracle for the C1 fixtures: succeeds on the first statement,
fails on the second. -/
def exRespond : String → Except PyErr RowSet
  | "SELECT 1" => .ok (threeSets.headD emptyRowSet)
  | _ => .error (.operationalError "Error executing query: boom")

/-! ## Theorems -/

/-! ### C5: multi-statement queries with parameters are rejected -/

/-- **C5.** For every query that tokenizes into more than one statement and
every non-empty list of parameter sets, `split_format_sql` raises
`NotSupportedError` ("formatting multistatement queries is not supported")
— no substitution output is produced. -/
theorem claim_C5 (query : String) (st1 st2 : Tok) (rest : List Tok)
    (parameters : List (List PVal)) (hp : parameters ≠ []) :
    split_format_sql query (st1 :: st2 :: rest) parameters
      = .error (.notSupportedError
          "formatting multistatement queries is not supported") := by
  have hp' : parameters.isEmpty = false := by
    cases parameters with
    | nil => exact absurd rfl hp
    | cons a l => rfl
  simp [split_format_sql, hp']

/-- Witness for C5: `"SELECT 1; SELECT 2"` with one parameter set. -/
theorem claim_C5_witness :
    split_format_sql "SELECT 1; SELECT 2"
      [Tok.flat "SELECT 1;", Tok.flat " SELECT 2"] [[PVal.int 1]]
      = .error (.notSupportedError
          "formatting multistatement queries is not supported") :=
  claim_C5 _ _ _ _ _ (List.cons_ne_nil _ _)

/-! ### C10: the empty-parameters branch of `split_format_sql` -/

/-- `dropTrailingWhile` agrees with reverse-dropWhile-reverse. -/
theorem dropTrailingWhile_eq (p : Char → Bool) (l : List Char) :
    dropTrailingWhile p l = (l.reverse.dropWhile p).reverse := by
  induction l with
  | nil => rfl
  | cons c cs ih =>
    rw [dropTrailingWhile, ih, List.reverse_cons, List.dropWhile_append]
    by_cases hd : (List.dropWhile p cs.reverse).isEmpty
    · have hd' : List.dropWhile p cs.reverse = [] := List.isEmpty_iff.mp hd
      rw [if_pos hd, hd']
      by_cases hc : p c = true
      · rw [if_pos ⟨by simp, hc⟩, List.dropWhile_cons]
        simp [hc]
      · rw [if_neg (by simp [hc]), List.dropWhile_cons]
        simp [hc]
    · have hcond : ¬((List.dropWhile p cs.reverse).reverse.isEmpty ∧ p c = true) := by
        rintro ⟨he, -⟩
        rw [List.isEmpty_iff, List.reverse_eq_nil_iff] at he
        exact hd (by rw [he]; rfl)
      rw [if_neg hcond, if_neg hd, List.reverse_append]
      simp

/-- The code's per-statement transformation (`str(st).strip().rstrip(";")`)
agrees with the forward characterization `specTrimC10`. -/
theorem codeTrim_eq_specTrim (s : String) :
    String.mk (pyRstripSemi (pyStrip s.data)) = specTrimC10 s := by
  unfold specTrimC10 pyRstripSemi pyStrip pyRstrip pyLstrip
  rw [dropTrailingWhile_eq, dropTrailingWhile_eq]

/-- **C10 (counterexample).** The claim maps each statement to its text
trimmed of *trailing* whitespace and a single trailing semicolon,
"otherwise unchanged"; but the code's `str(st).strip()` also removes
*leading* whitespace (and `rstrip(";")` removes every trailing semicolon).
On the one-statement query `" SELECT 1"` (sqlparse keeps the leading blank
in the statement text) the code returns `"SELECT 1"`, the claim predicts
`" SELECT 1"`. -/
theorem claim_C10_counterexample :
    split_format_sql " SELECT 1" [Tok.flat " SELECT 1"] [] = .ok ["SELECT 1"]
    ∧ claimTrimC10 (Tok.render (Tok.flat " SELECT 1")) = " SELECT 1"
    ∧ (" SELECT 1" : String) ≠ "SELECT 1" :=
  ⟨rfl, rfl, by decide⟩

/-- **C10 (amended).** With an empty parameter-set list,
`split_format_sql` returns, for each tokenized statement, the statement's
literal text trimmed of leading and trailing whitespace and then of every
trailing semicolon, and otherwise unchanged. -/
theorem claim_C10_amended (query : String) (st : Tok) (rest : List Tok) :
    split_format_sql query (st :: rest) []
      = .ok ((st :: rest).map (fun s => specTrimC10 (Tok.render s))) := by
  simp [split_format_sql, codeTrim_eq_specTrim]

/-! ### C8: `parse_type` round-trip through python `str()` -/

/-- `parseTypeChars` does not depend on the fuel once it covers the input
length (each unwrapping strips at least one character). -/
theorem parseTypeChars_congr :
    ∀ (f1 f2 : Nat) (raw : List Char), raw.length ≤ f1 → raw.length ≤ f2 →
      parseTypeChars f1 raw = parseTypeChars f2 raw := by
  intro f1
  induction f1 with
  | zero =>
    intro f2 raw h1 _
    have hraw : raw = [] := List.eq_nil_of_length_eq_zero (Nat.le_zero.mp h1)
    subst hraw
    cases f2 with
    | zero => rfl
    | succ m =>
      show CType.str = parseTypeChars (m + 1) []
      rw [parseTypeChars, if_neg (by decide), if_neg (by decide)]
      decide
  | succ n ih =>
    intro f2 raw h1 h2
    cases f2 with
    | zero =>
      have hraw : raw = [] := List.eq_nil_of_length_eq_zero (Nat.le_zero.mp h2)
      subst hraw
      show parseTypeChars (n + 1) [] = CType.str
      rw [parseTypeChars, if_neg (by decide), if_neg (by decide)]
      decide
    | succ m =>
      rw [parseTypeChars, parseTypeChars]
      by_cases hA : raw.take 6 = "Array(".data ∧ raw.getLast? = some ')'
      · rw [if_pos hA, if_pos hA]
        have hlen : ((raw.drop 6).dropLast).length = raw.length - 6 - 1 := by
          simp [List.length_dropLast, List.length_drop]
        refine congrArg CType.array (ih m _ ?_ ?_) <;> omega
      · rw [if_neg hA, if_neg hA]
        by_cases hN : raw.take 9 = "Nullable(".data ∧ raw.getLast? = some ')'
        · rw [if_pos hN, if_pos hN]
          have hlen : ((raw.drop 9).dropLast).length = raw.length - 9 - 1 := by
            simp [List.length_dropLast, List.length_drop]
          refine ih m _ ?_ ?_ <;> omega
        · rw [if_neg hN, if_neg hN]

/-- Re-parsing the python `str()` of a `parse_type` result yields the same
`Array` nesting with the scalar base degraded to `str` (type objects render
as `<class 'int'>` etc., never a known scalar name). -/
theorem parse_pyTypeStr (t : CType) :
    ∀ fuel, (pyTypeStrChars t).length ≤ fuel →
      parseTypeChars fuel (pyTypeStrChars t) = baseToStr t := by
  induction t with
  | int =>
    intro fuel hf
    match fuel, hf with
    | m + 13, _ =>
      rw [parseTypeChars, if_neg (by decide), if_neg (by decide)]
      decide
  | float =>
    intro fuel hf
    match fuel, hf with
    | m + 15, _ =>
      rw [parseTypeChars, if_neg (by decide), if_neg (by decide)]
      decide
  | str =>
    intro fuel hf
    match fuel, hf with
    | m + 13, _ =>
      rw [parseTypeChars, if_neg (by decide), if_neg (by decide)]
      decide
  | date =>
    intro fuel hf
    match fuel, hf with
    | m + 23, _ =>
      rw [parseTypeChars, if_neg (by decide), if_neg (by decide)]
      decide
  | datetime =>
    intro fuel hf
    match fuel, hf with
    | m + 27, _ =>
      rw [parseTypeChars, if_neg (by decide), if_neg (by decide)]
      decide
  | array t ih =>
    intro fuel hf
    have hchars : pyTypeStrChars (CType.array t)
        = ("Array(".data ++ pyTypeStrChars t) ++ [')'] := rfl
    have hlen : (pyTypeStrChars (CType.array t)).length
        = (pyTypeStrChars t).length + 7 := by
      rw [hchars]
      simp [List.length_append]
    rw [hlen] at hf
    match fuel, hf with
    | m + 1, hm =>
      have hside : (pyTypeStrChars (CType.array t)).take 6 = "Array(".data
          ∧ (pyTypeStrChars (CType.array t)).getLast? = some ')' := by
        constructor
        · rw [hchars, List.append_assoc,
            show (6 : Nat) = "Array(".data.length from rfl, List.take_left]
        · rw [hchars]
          exact List.getLast?_concat _
      have hdrop : (((pyTypeStrChars (CType.array t)).drop 6).dropLast)
          = pyTypeStrChars t := by
        rw [hchars, List.append_assoc,
          show (6 : Nat) = "Array(".data.length from rfl, List.drop_left,
          List.dropLast_concat]
      rw [parseTypeChars, if_pos hside, hdrop]
      exact congrArg CType.array (ih m (by omega))

/-- **C8 (counterexample).** The claim says
`parseType(str(parseType(x)))` is structurally equal to `parseType(x)` for
every well-formed input; but python `str()` of the type object `int`
renders `<class 'int'>`, which re-parses to the unknown-name fallback
`str`.  At `x = "Int8"` (well-formed, nesting depth 0) the round trip
gives `str`, not `int`. -/
theorem claim_C8_counterexample :
    parse_type (pyTypeStr (parse_type "Int8")) ≠ parse_type "Int8" := by
  decide

/-- **C8 (amended).** For every input string `x`,
`parseType(str(parseType(x)))` equals `parseType(x)` with its scalar base
type replaced by `str` (the `Array` nesting survives because
`ARRAY.__str__` re-serializes the `Array(...)` wrapper; the scalar base
renders as `<class '...'>`, an unknown name).  Structural equality as
claimed holds exactly when the base already parses to `str`. -/
theorem claim_C8_amended (x : String) :
    parse_type (pyTypeStr (parse_type x)) = baseToStr (parse_type x) :=
  parse_pyTypeStr (parse_type x) _ le_rfl

/-! ### C4: placeholder substitution counts parameters exactly -/

mutual

/-- `process_token` consumes exactly one parameter per placeholder in
DFS (left-to-right source) order: starting at counter `idx` it succeeds
iff the supply suffices (or the token has no placeholder), returning the
pure substitution and the advanced counter, and otherwise raises the
"not enough parameters" `DataError`. -/
theorem processToken_spec (params : List PVal) (t : Tok) (idx : Nat) :
    processToken params t idx =
      (if idx + countPh t ≤ params.length ∨ countPh t = 0 then
        .ok (substFrom params t idx, idx + countPh t)
      else .error (.dataError (notEnoughMsg params.length))) := by
  cases t with
  | placeholder src =>
    simp only [processToken, countPh, substFrom]
    by_cases h : params.length ≤ idx
    · rw [if_pos h, if_neg (by omega)]
    · rw [if_neg h, if_pos (by omega)]
  | flat src =>
    simp [processToken, countPh, substFrom]
  | group ts =>
    simp only [processToken, countPh, substFrom]
    rw [processTokenList_spec params ts idx]
    by_cases h : idx + countPhList ts ≤ params.length ∨ countPhList ts = 0
    · rw [if_pos h, if_pos h]
    · rw [if_neg h, if_neg h]

/-- `processToken_spec` over a forest. -/
theorem processTokenList_spec (params : List PVal) (ts : List Tok) (idx : Nat) :
    processTokenList params ts idx =
      (if idx + countPhList ts ≤ params.length ∨ countPhList ts = 0 then
        .ok (substFromList params ts idx, idx + countPhList ts)
      else .error (.dataError (notEnoughMsg params.length))) := by
  cases ts with
  | nil =>
    simp [processTokenList, countPhList, substFromList]
  | cons t ts' =>
    rw [processTokenList, processToken_spec params t idx]
    by_cases h1 : idx + countPh t ≤ params.length ∨ countPh t = 0
    · rw [if_pos h1]
      dsimp only
      rw [processTokenList_spec params ts' (idx + countPh t)]
      by_cases h2 : idx + countPh t + countPhList ts' ≤ params.length
          ∨ countPhList ts' = 0
      · have ho : idx + countPhList (t :: ts') ≤ params.length
            ∨ countPhList (t :: ts') = 0 := by
          simp only [countPhList]; omega
        rw [if_pos h2, if_pos ho]
        simp only [substFromList, countPhList, Nat.add_assoc]
      · have ho : ¬(idx + countPhList (t :: ts') ≤ params.length
            ∨ countPhList (t :: ts') = 0) := by
          simp only [countPhList]; omega
        rw [if_neg h2, if_neg ho]
    · have ho : ¬(idx + countPhList (t :: ts') ≤ params.length
          ∨ countPhList (t :: ts') = 0) := by
        simp only [countPhList]; omega
      rw [if_neg h1, if_neg ho]

end

/-- **C4.** For every single statement and every parameter set,
`format_statement` consumes exactly one value per placeholder in
left-to-right (DFS) order — on success the `k`-th placeholder becomes the
formatted `parameters[k]` (`substFrom` starting at 0) — and raises
`DataError` "not enough parameters ..." when fewer values are supplied
than there are placeholders, and `DataError` "too many parameters ..."
when values remain after all placeholders are replaced. -/
theorem claim_C4 (st : Tok) (params : List PVal) :
    (params.length < countPh st →
      format_statement st params
        = .error (.dataError (notEnoughMsg params.length)))
    ∧ (countPh st < params.length →
      format_statement st params
        = .error (.dataError (tooManyMsg params.length (countPh st))))
    ∧ (params.length = countPh st →
      format_statement st params
        = .ok (String.mk (pyRstripSemi (Tok.render (substFrom params st 0)).data))) := by
  refine ⟨fun h => ?_, fun h => ?_, fun h => ?_⟩ <;>
    rw [format_statement, processToken_spec]
  · rw [if_neg (by omega)]
  · rw [if_pos (by omega)]
    dsimp only
    rw [if_pos (by omega)]
    simp
  · rw [if_pos (by omega)]
    dsimp only
    rw [if_neg (by omega)]

/-- Witness for C4 on `SELECT ?, ?`: one parameter raises "not enough",
three raise "too many", two substitute in order. -/
theorem claim_C4_witness :
    format_statement exSt [PVal.int 1]
      = .error (.dataError (notEnoughMsg 1))
    ∧ format_statement exSt [PVal.int 1, PVal.str "a", PVal.int 3]
      = .error (.dataError (tooManyMsg 3 2))
    ∧ format_statement exSt [PVal.int 1, PVal.str "a"] = .ok "SELECT 1, 'a'" :=
  ⟨(claim_C4 exSt [PVal.int 1]).1 (by decide),
   ((claim_C4 exSt [PVal.int 1, PVal.str "a", PVal.int 3]).2.1 (by decide)).trans
     (by rfl),
   ((claim_C4 exSt [PVal.int 1, PVal.str "a"]).2.2 (by decide)).trans (by rfl)⟩

/-! ### C7: `parse_value` null passthrough and shape mismatches -/

/-- **C7 (counterexample).** The claim says a non-list raw value for an
`Array` type fails with `DataError`; but the source enforces the list
shape with a bare python `assert isinstance(value, list)`
(`_types.py` line 194), which raises `AssertionError`, not `DataError`. -/
theorem claim_C7_counterexample :
    parse_value (RawVal.int 0) (CType.array CType.str) pdtStub
      = .error .assertionError
    ∧ isDataErrorResult
        (parse_value (RawVal.int 0) (CType.array CType.str) pdtStub) = false :=
  ⟨rfl, rfl⟩

/-- **C7 (amended).** For every semantic type `t`, `parse_value(null, t)`
returns `null` unchanged; for `Array(inner)` the raw value is required to
be a list — a list converts element-wise with `inner`, while any non-list
raw value fails with `AssertionError` (bare `assert`), not `DataError`; a
non-string raw value for `Date`/`DateTime` fails with `DataError`. -/
theorem claim_C7_amended (t : CType) (pdt : String → Except PyErr PyDateTime)
    (v : RawVal) :
    parse_value RawVal.none t pdt = .ok ColVal.none
    ∧ ((∀ l, v ≠ RawVal.list l) → v ≠ RawVal.none →
        parse_value v (CType.array t) pdt = .error .assertionError)
    ∧ (∀ l, parse_value (RawVal.list l) (CType.array t) pdt
        = (l.mapM (fun it => parse_value it t pdt)).map ColVal.list)
    ∧ ((∀ s, v ≠ RawVal.str s) → v ≠ RawVal.none →
        isDataErrorResult (parse_value v CType.date pdt) = true
        ∧ isDataErrorResult (parse_value v CType.datetime pdt) = true) := by
  refine ⟨?_, ?_, ?_, ?_⟩
  · cases t <;> rfl
  · intro hl hn
    cases v with
    | list l => exact absurd rfl (hl l)
    | none => exact absurd rfl hn
    | int i => rfl
    | str s => rfl
    | bool b => rfl
  · intro l
    rfl
  · intro hs hn
    constructor <;>
      cases v with
      | str s => exact absurd rfl (hs s)
      | none => exact absurd rfl hn
      | int i => rfl
      | bool b => rfl
      | list l => rfl

/-- Witness for the amended C7 at concrete inputs. -/
theorem claim_C7_witness :
    parse_value RawVal.none (CType.array CType.int) pdtStub = .ok ColVal.none
    ∧ parse_value (RawVal.int 7) (CType.array CType.str) pdtStub
        = .error .assertionError
    ∧ isDataErrorResult (parse_value (RawVal.bool true) CType.date pdtStub)
        = true :=
  ⟨(claim_C7_amended (CType.array CType.int) pdtStub (RawVal.int 0)).1,
   (claim_C7_amended CType.str pdtStub (RawVal.int 7)).2.1
     (fun _ h => RawVal.noConfusion h) (fun h => RawVal.noConfusion h),
   ((claim_C7_amended CType.int pdtStub (RawVal.bool true)).2.2.2
     (fun _ h => RawVal.noConfusion h) (fun h => RawVal.noConfusion h)).1⟩

/-! ### C3: fetch semantics at and past the end of the rows -/

/-- `_parse_row` reads only the column descriptors, never the fetch
position. -/
theorem parseRow_idx (c : CursorSt) (x : Int) (row : List RawVal)
    (pdt : String → Except PyErr PyDateTime) :
    Cursor.parseRow { c with idx := x } row pdt = Cursor.parseRow c row pdt :=
  rfl

/-- A python slice from a valid position to the end is `List.drop`. -/
theorem pySlice_to_end {α : Type} (l : List α) (a : Int) (h0 : 0 ≤ a)
    (hle : a ≤ (l.length : Int)) :
    pySlice l a (l.length : Int) = l.drop a.toNat := by
  unfold pySlice pySliceIdx
  rw [if_neg (by omega), if_neg (by omega)]
  have h1 : (l.length : Int).toNat = l.length := Int.toNat_natCast l.length
  have h2 : a.toNat ≤ l.length := by omega
  rw [h1, Nat.min_self, List.take_length, Nat.min_eq_left h2]

/-- A python slice over an empty index range is empty. -/
theorem pySlice_refl {α : Type} (l : List α) (a : Int) : pySlice l a a = [] := by
  unfold pySlice pySliceIdx
  apply List.drop_eq_nil_of_le
  rw [List.length_take]
  omega

/-- **C3.** On an executed, open cursor: `fetchone` at the end of the
active rows returns `None`; `fetchmany` past the end is not an error and
returns exactly the remaining rows; `fetchall` with `rowcount = 0`
returns `[]`; and every fetch with `rows = None` (no tabular data
materialized) raises `DataError("no rows to fetch")`. -/
theorem claim_C3 (c : CursorSt) (pdt : String → Except PyErr PyDateTime)
    (hopen : c.state ≠ .CLOSED) (hrun : c.state ≠ .NONE) :
    (∀ rs, c.rows = some rs → c.idx = (rs.length : Int) →
      (Cursor.fetchone c pdt).2 = .ok none)
    ∧ (∀ rs (size : Int), c.rows = some rs → 0 ≤ c.idx →
        c.idx ≤ (rs.length : Int) → (rs.length : Int) ≤ c.idx + size →
        (Cursor.fetchmany c (some size) pdt).2
          = (rs.drop c.idx.toNat).mapM (fun row => Cursor.parseRow c row pdt))
    ∧ (∀ rs, c.rows = some rs → c.rowcount = 0 → 0 ≤ c.idx →
        c.idx ≤ (rs.length : Int) → (Cursor.fetchall c pdt).2 = .ok [])
    ∧ (c.rows = none →
        (Cursor.fetchone c pdt).2 = .error (.dataError "no rows to fetch")
        ∧ (∀ size, (Cursor.fetchmany c size pdt).2
            = .error (.dataError "no rows to fetch"))
        ∧ (Cursor.fetchall c pdt).2 = .error (.dataError "no rows to fetch")) := by
  refine ⟨?_, ?_, ?_, ?_⟩
  · intro rs hrows hidx
    have hmin : c.idx = min (c.idx + 1) (rs.length : Int) := by omega
    simp only [Cursor.fetchone, Cursor.getNextRange, hrows,
      if_neg hopen, if_neg hrun]
    rw [if_pos hmin]
  · intro rs size hrows h0 hle hsz
    have hmin : min (c.idx + size) (rs.length : Int) = (rs.length : Int) := by
      omega
    simp only [Cursor.fetchmany, Cursor.getNextRange, hrows,
      if_neg hopen, if_neg hrun, Option.getD_some, hmin]
    rw [pySlice_to_end rs c.idx h0 hle]
    have hpr : (fun row => Cursor.parseRow
        { state := c.state, arraysize := c.arraysize, rows := some rs,
          descriptions := c.descriptions, rowcount := c.rowcount,
          idx := (rs.length : Int), row_sets := c.row_sets,
          next_set_idx := c.next_set_idx } row pdt)
        = (fun row => Cursor.parseRow c row pdt) := rfl
    rw [hpr]
    cases h : (List.drop c.idx.toNat rs).mapM
        (fun row => Cursor.parseRow c row pdt) with
    | error e => rfl
    | ok out => rfl
  · intro rs hrows hrc h0 hle
    have hmin : min (c.idx + c.rowcount) (rs.length : Int) = c.idx := by omega
    simp only [Cursor.fetchall, Cursor.getNextRange, hrows,
      if_neg hopen, if_neg hrun, hmin]
    rw [pySlice_refl]
    rfl
  · intro hnone
    refine ⟨?_, fun size => ?_, ?_⟩ <;>
      simp only [Cursor.fetchone, Cursor.fetchmany, Cursor.fetchall,
        Cursor.getNextRange, hnone, if_neg hopen, if_neg hrun]

/-- Witness for C3 at concrete cursors. -/
theorem claim_C3_witness :
    (Cursor.fetchone cTwoRowsEnd pdtStub).2 = .ok none
    ∧ (Cursor.fetchmany cTwoRows (some 5) pdtStub).2
        = .ok [[ColVal.int 1], [ColVal.int 2]]
    ∧ (Cursor.fetchall cZeroRows pdtStub).2 = .ok []
    ∧ (Cursor.fetchone cNoRows pdtStub).2
        = .error (.dataError "no rows to fetch") :=
  ⟨(claim_C3 cTwoRowsEnd pdtStub (by decide) (by decide)).1
      [[RawVal.int 1], [RawVal.int 2]] rfl (by decide),
   (((claim_C3 cTwoRows pdtStub (by decide) (by decide)).2.1
      [[RawVal.int 1], [RawVal.int 2]] 5 rfl (by decide) (by decide)
      (by decide))).trans (by rfl),
   (claim_C3 cZeroRows pdtStub (by decide) (by decide)).2.2.1
      [] rfl rfl (by decide) (by decide),
   ((claim_C3 cNoRows pdtStub (by decide) (by decide)).2.2.2 rfl).1⟩

/-! ### C6: `nextset` cycles through the buffered sets -/

/-- A `nextset` with queued sets remaining succeeds: it activates the next
queued set, resets the fetch position to 0 and advances the queue
index, discarding whatever was active. -/
theorem nextset_step (c : CursorSt) (h1 : c.state ≠ .CLOSED)
    (h2 : c.state ≠ .NONE) (h : c.next_set_idx < c.row_sets.length) :
    Cursor.nextset c
      = ({ c with
          rowcount := (c.row_sets.getD c.next_set_idx emptyRowSet).rowcount
          descriptions := (c.row_sets.getD c.next_set_idx emptyRowSet).descriptions
          rows := (c.row_sets.getD c.next_set_idx emptyRowSet).rows
          idx := 0
          next_set_idx := c.next_set_idx + 1 }, .ok (some true)) := by
  have hget : c.row_sets.getD c.next_set_idx emptyRowSet
      = c.row_sets.get ⟨c.next_set_idx, h⟩ := List.getD_eq_getElem _ _ h
  simp only [Cursor.nextset, if_neg h1, if_neg h2, Cursor.popNextSet,
    dif_pos h, hget]

/-- A `nextset` with no sets remaining returns `None` and leaves the
cursor unchanged. -/
theorem nextset_end (c : CursorSt) (h1 : c.state ≠ .CLOSED)
    (h2 : c.state ≠ .NONE) (h : c.row_sets.length ≤ c.next_set_idx) :
    Cursor.nextset c = (c, .ok none) := by
  simp only [Cursor.nextset, if_neg h1, if_neg h2, Cursor.popNextSet,
    dif_neg (by omega : ¬c.next_set_idx < c.row_sets.length)]

/-- Iterating `nextset` from a post-execute cursor: after `j` calls
(`j + 1 ≤ N`) the queue index is `j + 1`, the buffer and state are
untouched, and for `j ≥ 1` the `j`-th buffered set is active with the
fetch position reset to 0. -/
theorem applyNextsets_spec (c : CursorSt) (hst : c.state = .DONE)
    (hnsi : c.next_set_idx = 1) :
    ∀ j, j + 1 ≤ c.row_sets.length →
      (applyNextsets c j).state = .DONE
      ∧ (applyNextsets c j).row_sets = c.row_sets
      ∧ (applyNextsets c j).next_set_idx = j + 1
      ∧ (1 ≤ j → (applyNextsets c j).idx = 0
          ∧ (applyNextsets c j).rowcount
              = (c.row_sets.getD j emptyRowSet).rowcount
          ∧ (applyNextsets c j).rows = (c.row_sets.getD j emptyRowSet).rows
          ∧ (applyNextsets c j).descriptions
              = (c.row_sets.getD j emptyRowSet).descriptions) := by
  intro j
  induction j with
  | zero =>
    intro _
    exact ⟨hst, rfl, by rw [applyNextsets, hnsi], fun h1 => absurd h1 (by omega)⟩
  | succ j ih =>
    intro h
    obtain ⟨hs, hrs, hn, _⟩ := ih (by omega)
    have hlt : (applyNextsets c j).next_set_idx
        < (applyNextsets c j).row_sets.length := by
      rw [hn, hrs]; omega
    have hstep := nextset_step (applyNextsets c j)
      (by rw [hs]; decide) (by rw [hs]; decide) hlt
    have happ : applyNextsets c (j + 1)
        = (Cursor.nextset (applyNextsets c j)).1 := rfl
    rw [happ, hstep]
    refine ⟨hs, hrs, by rw [hn], fun _ => ⟨rfl, ?_, ?_, ?_⟩⟩ <;>
      rw [hrs, hn]

/-- **C6.** After an execute that buffered `N` result sets, the first set
is already active: the next `N - 1` calls to `nextset` each return `true`,
activate the next queued set and reset the fetch position to 0, and the
`N`-th call returns `None`. -/
theorem claim_C6 (c : CursorSt) (N : Nat) (hlen : c.row_sets.length = N)
    (hnsi : c.next_set_idx = 1) (hst : c.state = .DONE) :
    (∀ j, j + 1 < N →
      (Cursor.nextset (applyNextsets c j)).2 = .ok (some true)
      ∧ (applyNextsets c (j + 1)).idx = 0
      ∧ (applyNextsets c (j + 1)).rows
          = (c.row_sets.getD (j + 1) emptyRowSet).rows
      ∧ (applyNextsets c (j + 1)).rowcount
          = (c.row_sets.getD (j + 1) emptyRowSet).rowcount
      ∧ (applyNextsets c (j + 1)).descriptions
          = (c.row_sets.getD (j + 1) emptyRowSet).descriptions)
    ∧ (1 ≤ N → (Cursor.nextset (applyNextsets c (N - 1))).2 = .ok none) := by
  constructor
  · intro j hj
    have hsp := applyNextsets_spec c hst hnsi (j + 1) (by omega)
    obtain ⟨_, _, _, hact⟩ := hsp
    obtain ⟨hidx, hrc, hrows, hdesc⟩ := hact (by omega)
    refine ⟨?_, hidx, hrows, hrc, hdesc⟩
    obtain ⟨hs, hrs, hn, _⟩ := applyNextsets_spec c hst hnsi j (by omega)
    have hlt : (applyNextsets c j).next_set_idx
        < (applyNextsets c j).row_sets.length := by
      rw [hn, hrs, hlen]; omega
    rw [nextset_step (applyNextsets c j)
      (by rw [hs]; decide) (by rw [hs]; decide) hlt]
  · intro hN
    obtain ⟨hs, hrs, hn, _⟩ := applyNextsets_spec c hst hnsi (N - 1) (by omega)
    rw [nextset_end (applyNextsets c (N - 1))
      (by rw [hs]; decide) (by rw [hs]; decide) (by rw [hn, hrs, hlen]; omega)]

/-- Witness for C6 with three buffered sets: `true`, `true`, then `None`,
with the second set's rows active after the first call. -/
theorem claim_C6_witness :
    (Cursor.nextset (applyNextsets cThreeSets 0)).2 = .ok (some true)
    ∧ (Cursor.nextset (applyNextsets cThreeSets 1)).2 = .ok (some true)
    ∧ (Cursor.nextset (applyNextsets cThreeSets 2)).2 = .ok none
    ∧ (applyNextsets cThreeSets 1).rows = some [[RawVal.str "x"]] :=
  ⟨((claim_C6 cThreeSets 3 rfl rfl rfl).1 0 (by omega)).1,
   ((claim_C6 cThreeSets 3 rfl rfl rfl).1 1 (by omega)).1,
   (claim_C6 cThreeSets 3 rfl rfl rfl).2 (by omega),
   (((claim_C6 cThreeSets 3 rfl rfl rfl).1 0 (by omega)).2.2.1).trans (by rfl)⟩

/-! ### C9: bounds on the fetch position -/

/-- Unpack `posInv` on a materialized result set. -/
theorem posInv_some (c : CursorSt) (rs : List (List RawVal))
    (hr : c.rows = some rs) (h : posInv c = true) :
    0 ≤ c.idx ∧ c.idx ≤ (rs.length : Int) := by
  unfold posInv at h
  rw [hr] at h
  exact of_decide_eq_true h

/-- Left component of a true `Bool` conjunction. -/
theorem bandLeft {a b : Bool} (h : (a && b) = true) : a = true := by
  cases a
  · simp at h
  · rfl

/-- Right component of a true `Bool` conjunction. -/
theorem bandRight {a b : Bool} (h : (a && b) = true) : b = true := by
  cases a
  · simp at h
  · simpa using h

/-- Unpack `countsWF` on a materialized result set. -/
theorem countsWF_rowcount (c : CursorSt) (rs : List (List RawVal))
    (hr : c.rows = some rs) (h : countsWF c = true) : 0 ≤ c.rowcount := by
  unfold countsWF at h
  rw [hr] at h
  exact of_decide_eq_true (bandLeft h)

/-- A forward fetch keeps the position within bounds. -/
theorem posInv_update (c : CursorSt) (rs : List (List RawVal))
    (hr : c.rows = some rs) (hinv : posInv c = true) (size : Int)
    (hsz : 0 ≤ size) :
    posInv { c with idx := min (c.idx + size) (rs.length : Int) } = true := by
  have hb := posInv_some c rs hr hinv
  unfold posInv
  dsimp only
  rw [hr]
  exact decide_eq_true (by omega)

/-- The state component of `fetchone` on an open, executed cursor with
materialized rows. -/
theorem fetchone_fst (c : CursorSt) (pdt : String → Except PyErr PyDateTime)
    (hC : c.state ≠ .CLOSED) (hN : c.state ≠ .NONE)
    (rs : List (List RawVal)) (hr : c.rows = some rs) :
    (Cursor.fetchone c pdt).1
      = { c with idx := min (c.idx + 1) (rs.length : Int) } := by
  simp only [Cursor.fetchone, Cursor.getNextRange, if_neg hC, if_neg hN, hr]
  repeat' split
  all_goals rfl

/-- The state component of `fetchmany`. -/
theorem fetchmany_fst (c : CursorSt) (size : Option Int)
    (pdt : String → Except PyErr PyDateTime)
    (hC : c.state ≠ .CLOSED) (hN : c.state ≠ .NONE)
    (rs : List (List RawVal)) (hr : c.rows = some rs) :
    (Cursor.fetchmany c size pdt).1
      = { c with
          idx := min (c.idx + size.getD c.arraysize) (rs.length : Int) } := by
  simp only [Cursor.fetchmany, Cursor.getNextRange, if_neg hC, if_neg hN, hr]
  repeat' split
  all_goals rfl

/-- The state component of `fetchall`. -/
theorem fetchall_fst (c : CursorSt) (pdt : String → Except PyErr PyDateTime)
    (hC : c.state ≠ .CLOSED) (hN : c.state ≠ .NONE)
    (rs : List (List RawVal)) (hr : c.rows = some rs) :
    (Cursor.fetchall c pdt).1
      = { c with idx := min (c.idx + c.rowcount) (rs.length : Int) } := by
  simp only [Cursor.fetchall, Cursor.getNextRange, if_neg hC, if_neg hN, hr]
  repeat' split
  all_goals rfl

/-- Fetch operations with materialized rows leave every non-`idx` field
unchanged, so one fetch-side step preserves the position bounds, the
row-count well-formedness and the `arraysize`, provided the step's size
is non-negative. -/
theorem fetchStep_preserve (pdt : String → Except PyErr PyDateTime)
    (c : CursorSt) (op : FetchOp)
    (hinv : posInv c = true) (hwf : countsWF c = true)
    (har : 0 ≤ c.arraysize) (hop : opSizeOK op = true) :
    posInv (fetchStep pdt c op) = true
    ∧ countsWF (fetchStep pdt c op) = true
    ∧ 0 ≤ (fetchStep pdt c op).arraysize := by
  by_cases hC : c.state = .CLOSED
  · have hid : fetchStep pdt c op = c := by
      cases op <;>
        simp [fetchStep, Cursor.fetchone, Cursor.fetchmany, Cursor.fetchall,
          Cursor.nextset, hC]
    rw [hid]; exact ⟨hinv, hwf, har⟩
  by_cases hN : c.state = .NONE
  · have hid : fetchStep pdt c op = c := by
      cases op <;>
        simp [fetchStep, Cursor.fetchone, Cursor.fetchmany, Cursor.fetchall,
          Cursor.nextset, hC, hN]
    rw [hid]; exact ⟨hinv, hwf, har⟩
  cases op with
  | fone =>
    cases hr : c.rows with
    | none =>
      have hid : fetchStep pdt c .fone = c := by
        simp [fetchStep, Cursor.fetchone, Cursor.getNextRange, hC, hN, hr]
      rw [hid]; exact ⟨hinv, hwf, har⟩
    | some rs =>
      have h1 := fetchone_fst c pdt hC hN rs hr
      refine ⟨?_, ?_, ?_⟩ <;> rw [fetchStep, h1]
      · exact posInv_update c rs hr hinv 1 (by omega)
      · exact hwf
      · exact har
  | fmany size =>
    cases hr : c.rows with
    | none =>
      have hid : fetchStep pdt c (.fmany size) = c := by
        simp [fetchStep, Cursor.fetchmany, Cursor.getNextRange, hC, hN, hr]
      rw [hid]; exact ⟨hinv, hwf, har⟩
    | some rs =>
      have h1 := fetchmany_fst c size pdt hC hN rs hr
      have hsz : 0 ≤ size.getD c.arraysize := by
        cases size with
        | none => exact har
        | some s => exact of_decide_eq_true hop
      refine ⟨?_, ?_, ?_⟩ <;> rw [fetchStep, h1]
      · exact posInv_update c rs hr hinv _ hsz
      · exact hwf
      · exact har
  | fall =>
    cases hr : c.rows with
    | none =>
      have hid : fetchStep pdt c .fall = c := by
        simp [fetchStep, Cursor.fetchall, Cursor.getNextRange, hC, hN, hr]
      rw [hid]; exact ⟨hinv, hwf, har⟩
    | some rs =>
      have h1 := fetchall_fst c pdt hC hN rs hr
      refine ⟨?_, ?_, ?_⟩ <;> rw [fetchStep, h1]
      · exact posInv_update c rs hr hinv _ (countsWF_rowcount c rs hr hwf)
      · exact hwf
      · exact har
  | nset =>
    by_cases hq : c.next_set_idx < c.row_sets.length
    · have hs : c.row_sets.getD c.next_set_idx emptyRowSet ∈ c.row_sets := by
        rw [List.getD_eq_getElem _ _ hq]
        exact List.getElem_mem _
      have h1 : fetchStep pdt c .nset
          = { c with
              rowcount := (c.row_sets.getD c.next_set_idx emptyRowSet).rowcount
              descriptions :=
                (c.row_sets.getD c.next_set_idx emptyRowSet).descriptions
              rows := (c.row_sets.getD c.next_set_idx emptyRowSet).rows
              idx := 0
              next_set_idx := c.next_set_idx + 1 } := by
        rw [fetchStep, nextset_step c hC hN hq]
      have hall := bandRight (by unfold countsWF at hwf; exact hwf)
      have hsel := List.all_eq_true.mp hall _ hs
      refine ⟨?_, ?_, ?_⟩ <;> rw [h1]
      · unfold posInv
        dsimp only
        cases hsr : (c.row_sets.getD c.next_set_idx emptyRowSet).rows with
        | none => rfl
        | some rs' =>
          exact decide_eq_true (by constructor <;> omega)
      · unfold countsWF
        dsimp only
        rw [Bool.and_eq_true]
        constructor
        · cases hsr : (c.row_sets.getD c.next_set_idx emptyRowSet).rows with
          | none => rfl
          | some rs' =>
            rw [hsr] at hsel
            exact hsel
        · exact bandRight (by unfold countsWF at hwf; exact hwf)
      · exact har
    · have h1 : fetchStep pdt c .nset = c := by
        rw [fetchStep, nextset_end c hC hN (by omega)]
      rw [h1]; exact ⟨hinv, hwf, har⟩

/-- **C9 (counterexample).**  The claim says the fetch position satisfies
`0 ≤ position ≤ len(rows)` for *any* integer `fetchmany` size; but
`_get_next_range` computes `right = min(idx + size, len)` and stores it
unconditionally, so `fetchmany(-1)` on a fresh two-row result moves the
position to `-1`. -/
theorem claim_C9_counterexample :
    posInv cTwoRows = true
    ∧ (Cursor.fetchmany cTwoRows (some (-1)) pdtStub).1.idx = -1
    ∧ posInv (Cursor.fetchmany cTwoRows (some (-1)) pdtStub).1 = false :=
  ⟨rfl, rfl, rfl⟩

/-- **C9 (amended).**  For every sequence of fetchOne / fetchMany /
fetchAll / nextSet operations in which every explicit `fetchmany` size is
non-negative, starting from a cursor whose position is in bounds, whose
`arraysize` is non-negative and whose buffered row counts are
non-negative (as decoded well-formed responses are), the fetch position
stays within `0 ≤ position ≤ len(active rows)`.  A negative `fetchmany`
size violates the bound (see the counterexample). -/
theorem claim_C9_amended (pdt : String → Except PyErr PyDateTime)
    (c : CursorSt) (ops : List FetchOp)
    (hinv : posInv c = true) (hwf : countsWF c = true)
    (har : 0 ≤ c.arraysize) (hops : ∀ op ∈ ops, opSizeOK op = true) :
    posInv (applyFetchOps pdt c ops) = true := by
  induction ops generalizing c with
  | nil => exact hinv
  | cons op rest ih =>
    have hstep := fetchStep_preserve pdt c op hinv hwf har
      (hops op (List.mem_cons_self op rest))
    exact ih (fetchStep pdt c op) hstep.1 hstep.2.1 hstep.2.2
      (fun o ho => hops o (List.mem_cons_of_mem op ho))

/-- Witness for the amended C9: a mixed operation sequence on the two-row
cursor keeps the position in bounds. -/
theorem claim_C9_witness :
    posInv (applyFetchOps pdtStub cTwoRows
      [.fone, .fmany (some 5), .fall, .nset, .fmany none]) = true :=
  claim_C9_amended pdtStub cTwoRows
    [.fone, .fmany (some 5), .fall, .nset, .fmany none]
    rfl rfl (by decide) (by decide)

/-! ### C1: failures during execute keep partial results and set `Error` -/

/-- Appending a decoded set to a cursor that already activated its first
set only extends the buffer. -/
theorem appendRowSet_active (c : CursorSt) (rs : RowSet)
    (h : c.next_set_idx ≠ 0) :
    Cursor.appendRowSet c rs = { c with row_sets := c.row_sets ++ [rs] } := by
  unfold Cursor.appendRowSet
  dsimp only
  rw [if_neg h]

/-- Buffering a run of decoded sets after activation only extends the
buffer. -/
theorem execBuffer_active :
    ∀ (rss : List RowSet) (c : CursorSt), c.next_set_idx ≠ 0 →
      execBuffer c rss = { c with row_sets := c.row_sets ++ rss } := by
  intro rss
  induction rss with
  | nil =>
    intro c h
    simp [execBuffer]
  | cons r rest ih =>
    intro c h
    show execBuffer (Cursor.appendRowSet c r) rest = _
    rw [appendRowSet_active c r h, ih _ (by exact h)]
    simp

/-- The very first decoded set lands in the buffer and is immediately
activated at fetch position 0. -/
theorem appendRowSet_init (c : CursorSt) (rs : RowSet)
    (h0 : c.row_sets = []) (hn : c.next_set_idx = 0) :
    Cursor.appendRowSet c rs
      = { c with
          row_sets := [rs]
          rowcount := rs.rowcount
          descriptions := rs.descriptions
          rows := rs.rows
          idx := 0
          next_set_idx := 1 } := by
  simp [Cursor.appendRowSet, Cursor.popNextSet, h0, hn]

/-- Buffering from a freshly reset cursor: the first set is active, the
whole run is buffered in order. -/
theorem execBuffer_reset (c0 : CursorSt) (h0 : c0.row_sets = [])
    (hn : c0.next_set_idx = 0) (r : RowSet) (rest : List RowSet) :
    execBuffer c0 (r :: rest)
      = { c0 with
          row_sets := r :: rest
          rowcount := r.rowcount
          descriptions := r.descriptions
          rows := r.rows
          idx := 0
          next_set_idx := 1 } := by
  show execBuffer (Cursor.appendRowSet c0 r) rest = _
  rw [appendRowSet_init c0 r h0 hn]
  have hne : ({ c0 with
      row_sets := [r]
      rowcount := r.rowcount
      descriptions := r.descriptions
      rows := r.rows
      idx := 0
      next_set_idx := 1 } : CursorSt).next_set_idx ≠ 0 := Nat.one_ne_zero
  rw [execBuffer_active rest _ hne]
  rfl

/-- The per-statement loop on `pre ++ q :: post`, where every statement
of `pre` decodes fine and `q`'s round trip fails: the state becomes
`ERROR`, the failure propagates unchanged, and exactly the `pre` results
are buffered (nothing of `post` runs). -/
theorem execLoop_error (respond : String → Except PyErr RowSet)
    (q : String) (e : PyErr) (he : respond q = .error e) :
    ∀ (pre : List String) (rss : List RowSet) (post : List String)
      (c0 : CursorSt),
      mapExcept respond pre = .ok rss →
      Cursor.execLoop respond (pre ++ q :: post) c0
        = ({ execBuffer c0 rss with state := .ERROR }, .error e) := by
  intro pre
  induction pre with
  | nil =>
    intro rss post c0 hm
    have hrss : rss = [] := by
      unfold mapExcept at hm
      injection hm with h
      exact h.symm
    subst hrss
    show Cursor.execLoop respond (q :: post) c0 = _
    unfold Cursor.execLoop
    rw [he]
    rfl
  | cons p pre' ih =>
    intro rss post c0 hm
    unfold mapExcept at hm
    cases hp : respond p with
    | error e' => rw [hp] at hm; exact absurd hm (by simp)
    | ok r =>
      rw [hp] at hm
      cases hrest : mapExcept respond pre' with
      | error e' => rw [hrest] at hm; exact absurd hm (by simp)
      | ok rest =>
        rw [hrest] at hm
        have hrss : rss = r :: rest := by injection hm with h; exact h.symm
        subst hrss
        rw [List.cons_append, Cursor.execLoop, hp]
        exact ih rest post (Cursor.appendRowSet c0 r) hrest

/-- A formatting failure inside `_do_execute_request`: nothing runs, the
state becomes `ERROR`, the exception propagates. -/
theorem doExec_error_fmt (c : CursorSt) (query : String) (stmts : List Tok)
    (params : List (List PVal)) (respond : String → Except PyErr RowSet)
    (e : PyErr)
    (hsplit : split_format_sql query stmts params = .error e) :
    Cursor.doExecuteRequest c query stmts params respond
      = ({ Cursor.reset c with state := .ERROR }, .error e) := by
  unfold Cursor.doExecuteRequest
  rw [hsplit]

/-- A round-trip failure mid-loop inside `_do_execute_request`. -/
theorem doExec_error_loop (c : CursorSt) (query : String) (stmts : List Tok)
    (params : List (List PVal)) (respond : String → Except PyErr RowSet)
    (pre : List String) (q : String) (post : List String)
    (rss : List RowSet) (e : PyErr)
    (hsplit : split_format_sql query stmts params = .ok (pre ++ q :: post))
    (hpre : mapExcept respond pre = .ok rss) (he : respond q = .error e) :
    Cursor.doExecuteRequest c query stmts params respond
      = ({ execBuffer (Cursor.reset c) rss with state := .ERROR }, .error e) := by
  unfold Cursor.doExecuteRequest
  rw [hsplit]
  exact execLoop_error respond q e he pre rss post (Cursor.reset c) hpre

/-- The buffered-prefix outcome satisfies everything claim C1 asks. -/
theorem execBuffer_outcome (c0 : CursorSt) (h0 : c0.row_sets = [])
    (hn : c0.next_set_idx = 0) (rss : List RowSet) (e : PyErr) :
    errorOutcome ({ execBuffer c0 rss with state := .ERROR }, .error e) rss e := by
  cases rss with
  | nil =>
    exact ⟨rfl, rfl, h0, fun r0 rest h => nomatch h⟩
  | cons r0 rest =>
    rw [execBuffer_reset c0 h0 hn r0 rest]
    exact ⟨rfl, rfl, rfl, fun r0' rest' hEq => by
      cases hEq
      exact ⟨rfl, rfl, rfl, rfl⟩⟩

/-- **C1.** For every `execute` or `executemany` call on a non-closed
cursor, an exception raised while processing the statements — during
formatting (`split_format_sql`) or during a statement's request /
validation / decoding round trip (the `respond` pipeline) — leaves the
cursor in state `Error`, propagates unchanged to the caller, and keeps
every result set buffered from the statements already processed in the
same call, the first of them still active for fetching. -/
theorem claim_C1 (c : CursorSt) (hc : c.state ≠ .CLOSED) (query : String)
    (stmts : List Tok) (respond : String → Except PyErr RowSet) :
    (∀ parameters e,
      split_format_sql query stmts (execParamsList parameters) = .error e →
      errorOutcome (Cursor.execute c query stmts parameters respond) [] e)
    ∧ (∀ params_seq e,
      split_format_sql query stmts params_seq = .error e →
      errorOutcome (Cursor.executemany c query stmts params_seq respond) [] e)
    ∧ (∀ parameters pre q post rss e,
      split_format_sql query stmts (execParamsList parameters)
        = .ok (pre ++ q :: post) →
      mapExcept respond pre = .ok rss → respond q = .error e →
      errorOutcome (Cursor.execute c query stmts parameters respond) rss e)
    ∧ (∀ params_seq pre q post rss e,
      split_format_sql query stmts params_seq = .ok (pre ++ q :: post) →
      mapExcept respond pre = .ok rss → respond q = .error e →
      errorOutcome (Cursor.executemany c query stmts params_seq respond) rss e) := by
  refine ⟨?_, ?_, ?_, ?_⟩
  · intro parameters e hsplit
    unfold Cursor.execute
    rw [if_neg hc, doExec_error_fmt c query stmts _ respond e hsplit]
    exact ⟨rfl, rfl, rfl, fun r0 rest h => nomatch h⟩
  · intro params_seq e hsplit
    unfold Cursor.executemany
    rw [if_neg hc, doExec_error_fmt c query stmts _ respond e hsplit]
    exact ⟨rfl, rfl, rfl, fun r0 rest h => nomatch h⟩
  · intro parameters pre q post rss e hsplit hpre he
    unfold Cursor.execute
    rw [if_neg hc,
      doExec_error_loop c query stmts _ respond pre q post rss e hsplit hpre he]
    exact execBuffer_outcome (Cursor.reset c) rfl rfl rss e
  · intro params_seq pre q post rss e hsplit hpre he
    unfold Cursor.executemany
    rw [if_neg hc,
      doExec_error_loop c query stmts _ respond pre q post rss e hsplit hpre he]
    exact execBuffer_outcome (Cursor.reset c) rfl rfl rss e

/-- Witness for C1: `"SELECT 1; FAIL"` — the first statement's result set
stays buffered and active, the second statement's transport error
propagates, the state is `Error`. -/
theorem claim_C1_witness :
    errorOutcome
      (Cursor.executemany Cursor.fresh "SELECT 1; FAIL"
        [Tok.flat "SELECT 1;", Tok.flat " FAIL"] [] exRespond)
      [threeSets.headD emptyRowSet]
      (.operationalError "Error executing query: boom") :=
  (claim_C1 Cursor.fresh (by decide) "SELECT 1; FAIL"
      [Tok.flat "SELECT 1;", Tok.flat " FAIL"] exRespond).2.2.2
    [] ["SELECT 1"] "FAIL" [] [threeSets.headD emptyRowSet]
    (.operationalError "Error executing query: boom") rfl rfl rfl

/-! ### C2: closing a connection closes everything -/

/-- `setClosed` keeps the cursor list's length. -/
theorem setClosed_length (cs : List CursorSt) (i : Nat) :
    (setClosed cs i).length = cs.length := by
  induction cs generalizing i with
  | nil => rfl
  | cons c cs ih =>
    cases i with
    | zero => rfl
    | succ i => simp [setClosed, ih]

/-- Pointwise description of `setClosed`. -/
theorem setClosed_getElem? (cs : List CursorSt) (i j : Nat) :
    (setClosed cs i)[j]?
      = if j = i then (cs[j]?).map (fun c => { c with state := .CLOSED })
        else cs[j]? := by
  induction cs generalizing i j with
  | nil => simp [setClosed]
  | cons c cs ih =>
    cases i with
    | zero =>
      cases j with
      | zero => simp [setClosed]
      | succ j => simp [setClosed]
    | succ i =>
      cases j with
      | zero => simp [setClosed]
      | succ j => simpa [setClosed] using ih i j

/-- `closeAll` keeps the cursor list's length. -/
theorem closeAll_length (l : List Nat) :
    ∀ conn : Conn, (Conn.closeAll l conn).created.length
      = conn.created.length := by
  induction l with
  | nil => intro conn; rfl
  | cons i rest ih =>
    intro conn
    show (Conn.closeAll rest (conn.closeCursor i)).created.length = _
    rw [ih]
    exact setClosed_length conn.created i

/-- `closeAll` does not touch the closed flag. -/
theorem closeAll_is_closed (l : List Nat) :
    ∀ conn : Conn, (Conn.closeAll l conn).is_closed = conn.is_closed := by
  induction l with
  | nil => intro conn; rfl
  | cons i rest ih => intro conn; exact ih (conn.closeCursor i)

/-- A cursor already closed stays closed through `closeAll`. -/
theorem closeAll_preserves_closed (l : List Nat) :
    ∀ (conn : Conn) (j : Nat) (c : CursorSt),
      conn.created[j]? = some c → c.state = .CLOSED →
      ∃ c', (Conn.closeAll l conn).created[j]? = some c'
        ∧ c'.state = .CLOSED := by
  induction l with
  | nil => intro conn j c hj hc; exact ⟨c, hj, hc⟩
  | cons i rest ih =>
    intro conn j c hj hc
    show ∃ c', (Conn.closeAll rest (conn.closeCursor i)).created[j]? = some c'
      ∧ c'.state = .CLOSED
    have hj' : (conn.closeCursor i).created[j]?
        = if j = i then (conn.created[j]?).map
            (fun c => { c with state := .CLOSED })
          else conn.created[j]? := setClosed_getElem? conn.created i j
    by_cases hji : j = i
    · rw [if_pos hji, hj] at hj'
      exact ih _ j _ hj' rfl
    · rw [if_neg hji, hj] at hj'
      exact ih _ j c hj' hc
/-- Every registered index iterated by `closeAll` ends up closed. -/
theorem closeAll_closes (l : List Nat) :
    ∀ (conn : Conn) (j : Nat), j ∈ l → j < conn.created.length →
      ∃ c', (Conn.closeAll l conn).created[j]? = some c'
        ∧ c'.state = .CLOSED := by
  induction l with
  | nil => intro conn j hj; exact absurd hj (List.not_mem_nil j)
  | cons i rest ih =>
    intro conn j hj hlt
    show ∃ c', (Conn.closeAll rest (conn.closeCursor i)).created[j]? = some c'
      ∧ c'.state = .CLOSED
    rcases List.mem_cons.mp hj with hji | hjr
    · subst hji
      have hsome : conn.created[j]? = some conn.created[j] :=
        List.getElem?_eq_getElem hlt
      have hj' : (conn.closeCursor j).created[j]?
          = some { conn.created[j] with state := .CLOSED } := by
        show (setClosed conn.created j)[j]? = _
        rw [setClosed_getElem? conn.created j j, if_pos rfl, hsome]
        rfl
      exact closeAll_preserves_closed rest _ j _ hj' rfl
    · have hlt' : j < (conn.closeCursor i).created.length := by
        show j < (setClosed conn.created i).length
        rw [setClosed_length]
        exact hlt
      exact ih (conn.closeCursor i) j hjr hlt'

/-- `aclose` always leaves the connection marked closed. -/
theorem aclose_is_closed (conn : Conn) :
    (Conn.aclose conn).is_closed = true := by
  unfold Conn.aclose
  by_cases h : conn.is_closed = true
  · rw [if_pos h]; exact h
  · rw [if_neg h]

/-- `aclose` on an already-closed connection is the identity. -/
theorem aclose_of_closed (conn : Conn) (h : conn.is_closed = true) :
    Conn.aclose conn = conn := by
  unfold Conn.aclose
  rw [if_pos h]

/-- **C2.** After `close` completes, every cursor the connection ever
created is closed (so a subsequent `execute` on any of them raises
`CursorClosedError`), creating a new cursor raises
`ConnectionClosedError`, and a second `close` is a no-op. -/
theorem claim_C2 (conn : Conn) (hwf : ConnWF conn) :
    (∀ c ∈ (Conn.aclose conn).created, c.state = .CLOSED)
    ∧ (∀ c ∈ (Conn.aclose conn).created,
        ∀ (query : String) (stmts : List Tok) (parameters : Option (List PVal))
          (respond : String → Except PyErr RowSet),
        (Cursor.execute c query stmts parameters respond).2
          = .error .cursorClosedError)
    ∧ Conn.newCursor (Conn.aclose conn) = .error .connectionClosedError
    ∧ Conn.aclose (Conn.aclose conn) = Conn.aclose conn := by
  have hclosed : ∀ c ∈ (Conn.aclose conn).created, c.state = .CLOSED := by
    intro c hc
    by_cases h : conn.is_closed = true
    · have : Conn.aclose conn = conn := by unfold Conn.aclose; rw [if_pos h]
      rw [this] at hc
      exact hwf.2 h c hc
    · have hac : (Conn.aclose conn).created
          = (Conn.closeAll conn.registry conn).created := by
        unfold Conn.aclose
        rw [if_neg h]
      rw [hac] at hc
      obtain ⟨j, hj, hcj⟩ := List.mem_iff_getElem.mp hc
      have hjlen : j < conn.created.length := by
        rw [← closeAll_length conn.registry conn]
        exact hj
      by_cases hreg : j ∈ conn.registry
      · obtain ⟨c', hc', hcl⟩ := closeAll_closes conn.registry conn j hreg hjlen
        have : some c = some c' := by
          rw [← hc', List.getElem?_eq_getElem hj, hcj]
        cases this
        exact hcl
      · have hcl0 : (conn.created.get ⟨j, hjlen⟩).state = .CLOSED :=
          hwf.1 ⟨j, hjlen⟩ hreg
        obtain ⟨c', hc', hcl⟩ := closeAll_preserves_closed conn.registry conn j
          (conn.created.get ⟨j, hjlen⟩) (List.getElem?_eq_getElem hjlen) hcl0
        have : some c = some c' := by
          rw [← hc', List.getElem?_eq_getElem hj, hcj]
        cases this
        exact hcl
  refine ⟨hclosed, ?_, ?_, ?_⟩
  · intro c hc query stmts parameters respond
    unfold Cursor.execute
    rw [if_pos (hclosed c hc)]
  · unfold Conn.newCursor
    rw [if_pos (aclose_is_closed conn)]
  · exact aclose_of_closed (Conn.aclose conn) (aclose_is_closed conn)

/-- The example connection is well-formed. -/
theorem exConn_wf : ConnWF exConn := ⟨by decide, by decide⟩

/-- Witness for C2 on a connection with one closed and two live cursors. -/
theorem claim_C2_witness :
    (∀ c ∈ (Conn.aclose exConn).created, c.state = .CLOSED)
    ∧ Conn.newCursor (Conn.aclose exConn) = .error .connectionClosedError
    ∧ Conn.aclose (Conn.aclose exConn) = Conn.aclose exConn :=
  ⟨(claim_C2 exConn exConn_wf).1,
   (claim_C2 exConn exConn_wf).2.2.1,
   (claim_C2 exConn exConn_wf).2.2.2⟩

end Firebolt
